import Mathlib

/-!
Verification of the Adaptive Conversation Intelligence Engine of the
basic-ai-chatbot repository.  The Python sources (discovery_engine.py,
context_manager.py, dynamic_questioning.py, analysis_engine.py,
scoring_system.py, personality_profiler.py) are shallowly embedded:
texts are `String` / `List Char`, Python floats that only ever hold exact
decimal fractions are embedded as `ℚ`, Python insertion-ordered dicts as
association lists, and mutating methods as state-passing functions.
-/

/- Batteries marks rational arithmetic irreducible, which blocks `decide` on the
concrete score computations below; restore the default reducibility. -/
set_option allowUnsafeReducibility true in
attribute [semireducible] Rat.add Rat.mul Rat.inv Rat.div Rat.sub

/- ===================== Text utilities ===================== -/

/-- Helper for substring containment: does the needle occur starting at some
position of the haystack?  Mirrors Python's `needle in hay`. -/
def listContainsAux (needle : List Char) : List Char → Bool
  | [] => needle.isEmpty
  | c :: rest => needle.isPrefixOf (c :: rest) || listContainsAux needle rest

/-- Python `needle in hay` substring containment over char lists. -/
def listContains (hay needle : List Char) : Bool :=
  listContainsAux needle hay

/-- Python `str.lower()` on ASCII text, producing the char list of the result. -/
def lowerData (s : String) : List Char := s.data.map Char.toLower

/-- Python `' '.join xs`. -/
def joinSpace (xs : List String) : String := String.intercalate " " xs

/-- Python `str.split()` on single-space-separated text (whitespace runs are
collapsed and empty fields dropped, as Python does). -/
def splitWordsAux : List Char → List Char → List (List Char)
  | [], acc => if acc.isEmpty then [] else [acc.reverse]
  | c :: rest, acc =>
      if c = ' ' then
        if acc.isEmpty then splitWordsAux rest [] else acc.reverse :: splitWordsAux rest []
      else splitWordsAux rest (c :: acc)

/-- Python `str.split()` of a char list into words. -/
def splitWords (s : List Char) : List (List Char) := splitWordsAux s []

/- ===================== Association lists (Python dicts) ===================== -/

/-- Lookup in an insertion-ordered association list (Python `dict[k]` / `dict.get`). -/
def lookupAssoc {α : Type} : List (String × α) → String → Option α
  | [], _ => none
  | (k', v) :: rest, k => if k' = k then some v else lookupAssoc rest k

/-- Update the value at an existing key in place (Python `dict[k] = f(dict[k])`);
a missing key leaves the list unchanged (Python would raise `KeyError` there,
which is unreachable from the initializers). -/
def updateAssoc {α : Type} : List (String × α) → String → (α → α) → List (String × α)
  | [], _, _ => []
  | (k', v) :: rest, k, f =>
      if k' = k then (k', f v) :: rest else (k', v) :: updateAssoc rest k f

/- ===================== discovery_engine.py : DiscoverySession ===================== -/

/-- The fixed ordered stage list of `DiscoverySession.__init__`. -/
def stages : List String :=
  ["introduction", "skills_assessment", "passion_exploration",
   "values_clarification", "synthesis", "recommendations"]

/-- Per-stage progress entry (`stage_progress[stage]`). -/
structure StageProgress where
  completed : Bool
  questionCount : Nat
deriving DecidableEq

/-- One stored response (`user_responses[stage]` entries); timestamps are
threaded in as opaque strings since `datetime.now()` is ambient. -/
structure AnswerRec where
  response : String
  timestamp : String
  questionNumber : Nat
deriving DecidableEq

/-- The mutable state of a `DiscoverySession`. -/
structure DiscoverySession where
  currentStage : Nat
  stageProgress : List (String × StageProgress)
  userResponses : List (String × List AnswerRec)
  sessionId : String
deriving DecidableEq

/-- A fresh session (`DiscoverySession.__init__`); the session id is threaded in. -/
def initSession (sid : String) : DiscoverySession :=
  { currentStage := 0
    stageProgress := stages.map (fun st => (st, ⟨false, 0⟩))
    userResponses := stages.map (fun st => (st, []))
    sessionId := sid }

/-- Name of the stage the session is in (`get_current_stage`). -/
def getCurrentStage (s : DiscoverySession) : String :=
  if s.currentStage < stages.length then stages.getD s.currentStage "" else "completed"

/-- The stage-name key used by `process_response` and `_advance_to_next_stage`. -/
def stageKey (s : DiscoverySession) : String := stages.getD s.currentStage ""

/-- Python `DiscoverySession._advance_to_next_stage`. -/
def advanceToNextStage (s : DiscoverySession) : DiscoverySession :=
  if s.currentStage < stages.length then
    { s with
        stageProgress :=
          updateAssoc s.stageProgress (stageKey s) (fun p => { p with completed := true })
        currentStage := s.currentStage + 1 }
  else s

/-- Python `DiscoverySession.process_response`: returns the updated session and
the accepted/not-accepted flag. -/
def processResponse (s : DiscoverySession) (text ts : String) : DiscoverySession × Bool :=
  if stages.length ≤ s.currentStage then (s, false)
  else
    let qc := ((lookupAssoc s.stageProgress (stageKey s)).getD ⟨false, 0⟩).questionCount
    ({ s with
        userResponses :=
          updateAssoc s.userResponses (stageKey s) (fun l => l ++ [⟨text, ts, qc⟩])
        stageProgress :=
          updateAssoc s.stageProgress (stageKey s)
            (fun p => { p with questionCount := p.questionCount + 1 }) },
     true)

/-- Result of `get_session_summary`. -/
structure SessionSummary where
  sessionId : String
  currentStage : String
  progress : List (String × StageProgress)
  totalResponses : Nat
  completionPercentage : ℚ
deriving DecidableEq

/-- Python `DiscoverySession.get_session_summary`. -/
def getSessionSummary (s : DiscoverySession) : SessionSummary :=
  { sessionId := s.sessionId
    currentStage := getCurrentStage s
    progress := s.stageProgress
    totalResponses := (s.userResponses.map (fun kv => kv.2.length)).sum
    completionPercentage := (s.currentStage : ℚ) / (stages.length : ℚ) * 100 }

/-- The structured record `save_session` writes to disk (the JSON text layer is
the excluded persistence collaborator; only the record's data round-trips). -/
structure SessionData where
  sessionId : String
  created : String
  currentStage : Nat
  stageProgress : List (String × StageProgress)
  userResponses : List (String × List AnswerRec)
  summary : SessionSummary
deriving DecidableEq

/-- Python `DiscoverySession.save_session` (the `created` timestamp is threaded in). -/
def saveSession (s : DiscoverySession) (created : String) : SessionData :=
  { sessionId := s.sessionId
    created := created
    currentStage := s.currentStage
    stageProgress := s.stageProgress
    userResponses := s.userResponses
    summary := getSessionSummary s }

/-- Python `DiscoverySession.load_session` (successful branch): the four saved
fields overwrite those of the receiving session object. -/
def loadSession (s : DiscoverySession) (d : SessionData) : DiscoverySession :=
  { s with
      sessionId := d.sessionId
      currentStage := d.currentStage
      stageProgress := d.stageProgress
      userResponses := d.userResponses }

/-- A session already past the last stage, used as a concrete terminal witness. -/
def termSession : DiscoverySession := { initSession "t" with currentStage := 6 }

/- ===================== context_manager.py : EnhancedContextManager ===================== -/

/-- Python `ContextInsight` dataclass. -/
structure ContextInsight where
  content : String
  stage : String
  confidence : ℚ
  timestamp : String
  insightType : String
deriving DecidableEq

/-- Python `ConversationTheme` dataclass. -/
structure ConversationTheme where
  themeName : String
  evidence : List String
  strength : ℚ
  firstMentioned : String
deriving DecidableEq

/-- One exchange of `conversation_timeline`. -/
structure Exchange where
  timestamp : String
  stage : String
  userInput : String
  botResponse : String
  exchangeId : Nat
deriving DecidableEq

/-- State of an `EnhancedContextManager`. -/
structure ContextState where
  insights : List ContextInsight
  themes : List (String × ConversationTheme)
  conversationTimeline : List Exchange
  currentStage : String
deriving DecidableEq

/-- The `strong_skill_indicator` entries of `insight_patterns`. -/
def strongSkillPatterns : List (String × ℚ) :=
  [("people often come to me", 8/10), ("i excel at", 8/10),
   ("i\u0027m naturally good at", 9/10), ("others seek me out", 8/10),
   ("i find it easy to", 7/10)]

/-- The `passion_indicator` entries of `insight_patterns`. -/
def passionPatterns : List (String × ℚ) :=
  [("i love", 8/10), ("makes me feel alive", 9/10), ("lose track of time", 9/10),
   ("deeply passionate about", 9/10), ("stirs my heart", 8/10)]

/-- The `value_indicator` entries of `insight_patterns`. -/
def valuePatterns : List (String × ℚ) :=
  [("important to me", 7/10), ("i believe in", 7/10),
   ("guides my decisions", 8/10), ("core value", 9/10)]

/-- The `gift_indicator` entries of `insight_patterns`. -/
def giftPatterns : List (String × ℚ) :=
  [("calling", 8/10), ("ministry", 8/10), ("gifted in", 9/10),
   ("spiritual gift", 9/10)]

/-- The `insight_patterns` table of `_extract_insights_from_exchange`. -/
def insightPatterns : List (String × List (String × ℚ)) :=
  [("strong_skill_indicator", strongSkillPatterns),
   ("passion_indicator", passionPatterns),
   ("value_indicator", valuePatterns),
   ("gift_indicator", giftPatterns)]

/-- The `insight_threshold` setting (0.6). -/
def insightThreshold : ℚ := 6/10

/-- New insights produced from one category's pattern list for one exchange:
every pattern contained in the lower-cased input whose confidence reaches the
threshold appends one insight (the loop in the source has no break). -/
def newInsightsFor (ty : String) (pats : List (String × ℚ))
    (userInput stage ts : String) : List ContextInsight :=
  pats.filterMap (fun pc =>
    if listContains (lowerData userInput) pc.1.data ∧ insightThreshold ≤ pc.2 then
      some ⟨userInput, stage, pc.2, ts, ty⟩
    else none)

/-- Python `EnhancedContextManager._extract_insights_from_exchange`, acting on
the insight log. -/
def extractInsightsFromExchange (insights : List ContextInsight)
    (userInput stage ts : String) : List ContextInsight :=
  insights ++
    (insightPatterns.flatMap fun typat =>
      newInsightsFor typat.1 typat.2 userInput stage ts)

/-- The `theme_keywords` table of `_update_themes`. -/
def themeKeywords : List (String × List String) :=
  [("teaching", ["teach", "explain", "mentor", "guide", "instruct", "help others learn"]),
   ("leadership", ["lead", "direct", "manage", "organize", "vision", "inspire others"]),
   ("helping", ["help", "serve", "support", "assist", "care for", "come alongside"]),
   ("creativity", ["create", "design", "artistic", "express", "beauty", "innovation"]),
   ("justice", ["justice", "fairness", "equality", "advocate", "stand up for", "rights"]),
   ("people_focus", ["people", "relationships", "community", "connection", "social"])]

/-- The strengthened copy of a theme after a repeat match (`_update_themes`,
increment 0.5 then clamp at 5.0). -/
def strengthenTheme (input : String) (t : ConversationTheme) : ConversationTheme :=
  { t with
      evidence := t.evidence ++ [input]
      strength := if t.strength + 1/2 > 5 then 5 else t.strength + 1/2 }

/-- One category step of `_update_themes`: create the theme on its first match
(appended at the end of the dict) or strengthen it by 0.5 clamped at 5.0. -/
def updateThemeStep (userInput stage : String)
    (themes : List (String × ConversationTheme)) (cat : String × List String) :
    List (String × ConversationTheme) :=
  if (cat.2.filter (fun kw => listContains (lowerData userInput) kw.data)).isEmpty then
    themes
  else
    match lookupAssoc themes cat.1 with
    | none => themes ++ [(cat.1, ⟨cat.1, [userInput], 1, stage⟩)]
    | some _ => updateAssoc themes cat.1 (strengthenTheme userInput)

/-- Python `EnhancedContextManager._update_themes`. -/
def updateThemes (themes : List (String × ConversationTheme))
    (userInput stage : String) : List (String × ConversationTheme) :=
  themeKeywords.foldl (updateThemeStep userInput stage) themes

/-- Effect of one `_update_themes` category step on its own key's binding, as a
function of that key's previous binding (helper for the theorems below). -/
def stepResult (input stage name : String) (kws : List String)
    (o : Option ConversationTheme) : Option ConversationTheme :=
  if (kws.filter (fun kw => listContains (lowerData input) kw.data)).isEmpty then o
  else
    match o with
    | none => some ⟨name, [input], 1, stage⟩
    | some t => some (strengthenTheme input t)

/-- Invariant carried by every reachable theme dictionary: all strengths lie in
the interval from the creation value 1.0 to the ceiling 5.0. -/
def themeStrengthInv (th : List (String × ConversationTheme)) : Prop :=
  ∀ nm t, lookupAssoc th nm = some t → 1 ≤ t.strength ∧ t.strength ≤ 5

/-- The theme dictionary reached from a fresh manager after a sequence of
exchange recordings (`_update_themes` is the only place themes are written). -/
def runThemeCalls (calls : List (String × String)) : List (String × ConversationTheme) :=
  calls.foldl (fun th c => updateThemes th c.1 c.2) []

/-- Does the named theme category have a keyword occurring in the input? -/
def themeMatches (name input : String) : Bool :=
  match lookupAssoc themeKeywords name with
  | none => false
  | some kws => !(kws.filter (fun kw => listContains (lowerData input) kw.data)).isEmpty

/-- Record written for one insight by `save_context`. -/
structure InsightRecord where
  content : String
  stage : String
  confidence : ℚ
  timestamp : String
  insightType : String
deriving DecidableEq

/-- Record written for one theme by `save_context`. -/
structure ThemeRecord where
  themeName : String
  evidence : List String
  strength : ℚ
  firstMentioned : String
deriving DecidableEq

/-- The structured record `save_context` writes. -/
structure ContextData where
  insights : List InsightRecord
  themes : List (String × ThemeRecord)
  conversationTimeline : List Exchange
  currentStage : String
deriving DecidableEq

/-- Field-by-field serialization of one insight in `save_context`. -/
def insightToRecord (i : ContextInsight) : InsightRecord :=
  ⟨i.content, i.stage, i.confidence, i.timestamp, i.insightType⟩

/-- Field-by-field serialization of one theme in `save_context`. -/
def themeToRecord (t : ConversationTheme) : ThemeRecord :=
  ⟨t.themeName, t.evidence, t.strength, t.firstMentioned⟩

/-- Python `EnhancedContextManager.save_context`. -/
def saveContext (c : ContextState) : ContextData :=
  { insights := c.insights.map insightToRecord
    themes := c.themes.map (fun kv => (kv.1, themeToRecord kv.2))
    conversationTimeline := c.conversationTimeline
    currentStage := c.currentStage }

/-- Inverse of `insightToRecord`. -/
def recordToInsight (r : InsightRecord) : ContextInsight :=
  ⟨r.content, r.stage, r.confidence, r.timestamp, r.insightType⟩

/-- Inverse of `themeToRecord`. -/
def recordToTheme (r : ThemeRecord) : ConversationTheme :=
  ⟨r.themeName, r.evidence, r.strength, r.firstMentioned⟩

/-- Modelled from the spec: the repository has no context deserializer (only
`EnhancedContextManager.save_context` exists; nothing reads the saved record
back).  The spec's persistence interface demands that session state "must
serialize to a structured, human-readable record and be fully reconstructable
from it", so the loader reads the four saved fields back into the manager. -/
def loadContext (c : ContextState) (d : ContextData) : ContextState :=
  { c with
      insights := d.insights.map recordToInsight
      themes := d.themes.map (fun kv => (kv.1, recordToTheme kv.2))
      conversationTimeline := d.conversationTimeline
      currentStage := d.currentStage }

/- ===================== dynamic_questioning.py : DynamicQuestioningEngine ===================== -/

/-- Python `QuestionType` enum. -/
inductive QuestionType where
  | standard
  | followUp
  | deepDive
  | clarification
  | synthesis
deriving DecidableEq

/-- Python `DynamicQuestion` dataclass. -/
structure DynamicQuestion where
  questionText : String
  questionType : QuestionType
  targetTheme : String
  reasoning : String
  priority : ℚ
deriving DecidableEq

/-- Python `ResponsePattern` dataclass. -/
structure ResponsePattern where
  patternName : String
  confidence : ℚ
  evidence : List String
  stageFirstSeen : String
  implications : List String
deriving DecidableEq

/-- One entry of the `pattern_rules` table of `analyze_response_patterns`. -/
structure PatternRule where
  name : String
  keywords : List String
  phrases : List String
  threshold : ℚ
deriving DecidableEq

/-- The `strong_teaching_indicators` rule. -/
def teachingRule : PatternRule :=
  ⟨"strong_teaching_indicators",
   ["teach", "explain", "mentor", "guide", "help others learn", "break down"],
   ["people come to me", "i love helping others understand", "explaining"], 7/10⟩

/-- The `leadership_emergence` rule. -/
def leadershipRule : PatternRule :=
  ⟨"leadership_emergence",
   ["lead", "organize", "vision", "inspire", "motivate others", "take charge"],
   ["others follow", "i see the big picture", "rally people"], 7/10⟩

/-- The `service_orientation` rule. -/
def serviceRule : PatternRule :=
  ⟨"service_orientation",
   ["serve", "help", "support", "care", "assist", "come alongside"],
   ["behind the scenes", "prefer to support", "help others succeed"], 6/10⟩

/-- The `creative_expression` rule. -/
def creativeRule : PatternRule :=
  ⟨"creative_expression",
   ["create", "design", "artistic", "beauty", "express", "imagine"],
   ["creative outlet", "artistic expression", "beauty matters"], 6/10⟩

/-- The `justice_passion` rule. -/
def justiceRule : PatternRule :=
  ⟨"justice_passion",
   ["justice", "fair", "equality", "advocate", "stand up", "rights"],
   ["not fair", "speak up for", "injustice bothers me"], 7/10⟩

/-- The `pattern_rules` table, in declaration order. -/
def patternRules : List PatternRule :=
  [teachingRule, leadershipRule, serviceRule, creativeRule, justiceRule]

/-- Python `_get_pattern_implications` lookup table. -/
def implicationsMap : List (String × List String) :=
  [("strong_teaching_indicators",
    ["Explore specific teaching experiences",
     "Ask about satisfaction from others learning",
     "Investigate formal vs informal teaching preferences"]),
   ("leadership_emergence",
    ["Explore vision-casting experiences",
     "Ask about team dynamics and motivation",
     "Investigate leadership style preferences"]),
   ("service_orientation",
    ["Explore behind-the-scenes contributions",
     "Ask about satisfaction from supporting others",
     "Investigate preferred ways to help"]),
   ("creative_expression",
    ["Explore artistic outlets and mediums",
     "Ask about role of beauty in life",
     "Investigate creative problem-solving"]),
   ("justice_passion",
    ["Explore specific justice issues that matter",
     "Ask about advocacy experiences",
     "Investigate ways they want to create change"])]

/-- Python `DynamicQuestioningEngine._get_pattern_implications`. -/
def getPatternImplications (name : String) : List String :=
  (lookupAssoc implicationsMap name).getD []

/-- The dictionary of per-stage answer lists handed to the engine and to the
scoring layer (Python `user_responses`). -/
abbrev UserResponses := List (String × List AnswerRec)

/-- All response texts across stages in dict order (`all_responses` collection). -/
def allResponseTexts (ur : UserResponses) : List String :=
  ur.flatMap (fun kv => kv.2.map (fun a => a.response))

/-- The concatenated lower-cased corpus (`' '.join(all_responses).lower()`). -/
def responseCorpus (ur : UserResponses) : List Char :=
  lowerData (joinSpace (allResponseTexts ur))

/-- Scoring of one pattern rule over the corpus (`analyze_response_patterns`
loop body): 0.2 per matched keyword plus 0.3 per matched phrase, evidence
collected along the way, confidence capped at 1.0, emission gated by the
rule threshold and non-empty evidence. -/
def evalPatternRule (corpus : List Char) (stage : String) (rule : PatternRule) :
    Option ResponsePattern :=
  let kwAcc := rule.keywords.foldl
    (fun (acc : List String × ℚ) kw =>
      if listContains corpus kw.data then
        (acc.1 ++ ["Mentioned: " ++ kw], acc.2 + 2/10)
      else acc) ([], 0)
  let phAcc := rule.phrases.foldl
    (fun (acc : List String × ℚ) ph =>
      if listContains corpus ph.data then
        (acc.1 ++ ["Said: " ++ ph], acc.2 + 3/10)
      else acc) kwAcc
  let confidence := min phAcc.2 1
  if rule.threshold ≤ confidence ∧ ¬ phAcc.1.isEmpty then
    some ⟨rule.name, confidence, phAcc.1, stage, getPatternImplications rule.name⟩
  else none

/-- Python `DynamicQuestioningEngine.analyze_response_patterns` (the list of
patterns returned by one call). -/
def analyzeResponsePatterns (ur : UserResponses) (currentStage : String) :
    List ResponsePattern :=
  patternRules.filterMap (evalPatternRule (responseCorpus ur) currentStage)

/-- The engine state carried across calls (the `response_patterns` history). -/
structure EngineState where
  responsePatterns : List ResponsePattern
deriving DecidableEq

/-- A fresh `DynamicQuestioningEngine`. -/
def initialEngine : EngineState := ⟨[]⟩

/-- The `deep_dive_threshold` setting (0.8). -/
def deepDiveThreshold : ℚ := 8/10

/-- The state mutation done inside `analyze_response_patterns`
(`self.response_patterns.extend(patterns)`), paired with the returned patterns. -/
def runAnalyze (e : EngineState) (ur : UserResponses) (stage : String) :
    EngineState × List ResponsePattern :=
  let ps := analyzeResponsePatterns ur stage
  (⟨e.responsePatterns ++ ps⟩, ps)

/-- Two-decimal rendering of a confidence (Python `f"{c:.2f}"` for the
non-negative exact decimals that arise here). -/
def format2dp (q : ℚ) : String :=
  let cents : ℤ := ⌊q * 100⌋
  let frac := (cents % 100).toNat
  toString (cents / 100) ++ "." ++
    (if frac < 10 then "0" ++ toString frac else toString frac)

/-- The `deep_dive_templates` table of `_generate_deep_dive_question`; only
three of the five pattern names have templates. -/
def deepDiveTemplates : List (String × List String) :=
  [("strong_teaching_indicators",
    ["You\u0027ve mentioned teaching/explaining several times - can you tell me about a specific time when you helped someone understand something complex?",
     "It sounds like you have a natural teaching gift. What do you find most rewarding about helping others learn?",
     "When you\u0027re explaining something to someone, what approach do you naturally take?"]),
   ("leadership_emergence",
    ["I notice leadership themes in what you\u0027re sharing. Can you describe a time when you naturally took charge of a situation?",
     "What happens when you\u0027re in a group and no clear direction exists?",
     "How do you typically motivate or inspire others?"]),
   ("service_orientation",
    ["You seem drawn to supporting and helping others. What\u0027s your favorite way to serve?",
     "Tell me about a time when you helped someone succeed - what was that like for you?",
     "Do you prefer to help from behind the scenes or more visibly?"])]

/-- Python `DynamicQuestioningEngine._generate_deep_dive_question`: first
template of the pattern\u0027s entry, or nothing when the pattern has no entry. -/
def generateDeepDiveQuestion (pattern : ResponsePattern) (lastResponse : String) :
    Option DynamicQuestion :=
  match lookupAssoc deepDiveTemplates pattern.patternName with
  | none => none
  | some templates =>
      match templates with
      | [] => none
      | t :: _ =>
          some ⟨t, QuestionType.deepDive, pattern.patternName,
            "Strong " ++ pattern.patternName ++ " pattern detected (confidence: " ++
              format2dp pattern.confidence ++ ")", 9/10⟩

/-- The deep-dive scan of `generate_next_question`: first new pattern at or
above the deep-dive threshold whose template lookup succeeds. -/
def findDeepDive : List ResponsePattern → String → Option DynamicQuestion
  | [], _ => none
  | p :: rest, lastResp =>
      if deepDiveThreshold ≤ p.confidence then
        match generateDeepDiveQuestion p lastResp with
        | some q => some q
        | none => findDeepDive rest lastResp
      else findDeepDive rest lastResp

/-- One entry of the `follow_up_rules` table. -/
structure FollowUpRule where
  triggers : List String
  question : String
  reasoning : String
deriving DecidableEq

/-- The `follow_up_rules` table of `_generate_follow_up_question`. -/
def followUpRules : List FollowUpRule :=
  [⟨["i love", "passionate about", "deeply care"],
    "What specifically about that resonates so deeply with you?",
    "User expressed strong passion"⟩,
   ⟨["difficult", "challenging", "struggle with"],
    "Even though it\u0027s challenging, what draws you to persist with it?",
    "User mentioned difficulty but continued engagement"⟩,
   ⟨["people come to me", "others seek me out", "friends ask me"],
    "What do you think it is about you that makes people naturally turn to you for this?",
    "User mentioned others recognizing their ability"⟩,
   ⟨["started", "began", "initiated"],
    "What motivated you to take that first step?",
    "User mentioned taking initiative"⟩]

/-- Python `DynamicQuestioningEngine._generate_follow_up_question`: first rule
with a trigger contained in the lower-cased last response. -/
def generateFollowUpQuestion (lastResponse stage : String) : Option DynamicQuestion :=
  (followUpRules.find? (fun rule =>
      rule.triggers.any (fun t => listContains (lowerData lastResponse) t.data))).map
    (fun rule => ⟨rule.question, QuestionType.followUp, stage, rule.reasoning, 7/10⟩)

/-- The `coverage_requirements` table (`_define_coverage_requirements`). -/
def coverageRequirements : List (String × List String) :=
  [("natural_abilities",
    ["What comes easily to you that others find difficult?",
     "What skills do people compliment you on most often?",
     "In what areas do others seek your help or advice?"]),
   ("energy_sources",
    ["What activities energize rather than drain you?",
     "When do you feel most alive and engaged?",
     "What would you do for free because you love it so much?"]),
   ("core_values",
    ["What principles guide your important decisions?",
     "What would you want to be remembered for?",
     "What injustices or problems motivate you to action?"]),
   ("impact_desires",
    ["How do you want to make a difference in the world?",
     "What legacy do you hope to leave?",
     "Who do you most want to help or serve?"])]

/-- The `theme_indicators` table of `_find_uncovered_area`. -/
def themeIndicators : List (String × List String) :=
  [("natural_abilities", ["good at", "excel", "talented", "naturally", "easily"]),
   ("energy_sources", ["energizes", "love", "enjoy", "alive", "passionate"]),
   ("core_values", ["value", "important", "principle", "believe", "matters"]),
   ("impact_desires", ["difference", "change", "help", "impact", "legacy"])]

/-- Python `DynamicQuestioningEngine._find_uncovered_area`: first coverage area
in declaration order none of whose lexical indicators occur in the corpus. -/
def findUncoveredArea (ur : UserResponses) : Option String :=
  (coverageRequirements.find? (fun ac =>
      match lookupAssoc themeIndicators ac.1 with
      | none => true
      | some ind => !(ind.any (fun i => listContains (responseCorpus ur) i.data)))).map
    (fun ac => ac.1)

/-- Python `DynamicQuestioningEngine._generate_coverage_question`. -/
def generateCoverageQuestion (area : String) : DynamicQuestion :=
  ⟨((lookupAssoc coverageRequirements area).getD []).headD "",
   QuestionType.standard, area, "Ensuring coverage of " ++ area, 6/10⟩

/-- The `synthesis_questions` list of `_generate_synthesis_question`. -/
def synthesisQuestions : List String :=
  ["Looking at what you\u0027ve shared about your strengths and passions, where do you see the strongest connections?",
   "What patterns are you noticing about what energizes you and what you\u0027re naturally good at?",
   "If you could design a role that perfectly combined your gifts and passions, what would it look like?",
   "How do you think your natural abilities could serve your deepest passions?"]

/-- Python `DynamicQuestioningEngine._generate_synthesis_question`. -/
def generateSynthesisQuestion : DynamicQuestion :=
  ⟨synthesisQuestions.headD "", QuestionType.synthesis, "pattern_connection",
   "Multiple strong patterns identified - time to synthesize", 8/10⟩

/-- The `standard_questions` table of `_generate_standard_question`. -/
def standardQuestions : List (String × String) :=
  [("introduction", "Tell me what brought you here to explore your spiritual gifts today?"),
   ("skills_assessment", "What\u0027s something you do that others find difficult but comes naturally to you?"),
   ("passion_exploration", "What activities or causes make you feel most alive and engaged?"),
   ("values_clarification", "What principles or values guide your most important decisions?")]

/-- Python `DynamicQuestioningEngine._generate_standard_question`. -/
def generateStandardQuestion (stage : String) : DynamicQuestion :=
  ⟨(lookupAssoc standardQuestions stage).getD "Tell me more about your experiences.",
   QuestionType.standard, stage, "Standard stage question", 5/10⟩

/-- Question selection of `generate_next_question` given the new detection
pass and the already-extended history (the tail of the method after the
`analyze_response_patterns` call). -/
def selectNextQuestion (newPatterns : List ResponsePattern) (e2 : EngineState)
    (ur : UserResponses) (currentStage lastResponse : String) : DynamicQuestion :=
  match findDeepDive newPatterns lastResponse with
  | some q => q
  | none =>
      match generateFollowUpQuestion lastResponse currentStage with
      | some q => q
      | none =>
          match findUncoveredArea ur with
          | some area => generateCoverageQuestion area
          | none =>
              if 2 ≤ (e2.responsePatterns.filter
                  (fun p => decide ((7:ℚ)/10 ≤ p.confidence))).length then
                generateSynthesisQuestion
              else generateStandardQuestion currentStage

/-- Python `DynamicQuestioningEngine.generate_next_question`, returning the
mutated engine (its pattern history extended by the new detection pass) and
the selected question. -/
def generateNextQuestion (e : EngineState) (ur : UserResponses)
    (currentStage lastResponse : String) : EngineState × DynamicQuestion :=
  let newPatterns := analyzeResponsePatterns ur currentStage
  let e2 : EngineState := ⟨e.responsePatterns ++ newPatterns⟩
  (e2, selectNextQuestion newPatterns e2 ur currentStage lastResponse)

/-- A corpus whose only high-confidence detection is `creative_expression`
(four keyword hits, score 0.8), which has no deep-dive template. -/
def urCreative : UserResponses :=
  [("introduction", [⟨"create design artistic beauty", "t0", 0⟩])]

/-- A corpus with five `strong_teaching_indicators` keyword hits (score capped
at 1.0). -/
def urTeaching : UserResponses :=
  [("skills_assessment",
    [⟨"i teach explain mentor guide and break down stuff", "t0", 0⟩])]

/- ===================== analysis_engine.py : SkillsPassionsAnalyzer ===================== -/

/-- The `skill_keywords` table of `SkillsPassionsAnalyzer.__init__`. -/
def skillKeywords : List (String × List String) :=
  [("teaching", ["teach", "mentor", "guide", "explain", "instruct", "train", "educate", "coach"]),
   ("leadership", ["lead", "manage", "organize", "coordinate", "direct", "supervise", "delegate"]),
   ("communication", ["speak", "write", "present", "communicate", "express", "articulate", "convey"]),
   ("helping", ["help", "assist", "support", "serve", "care", "counsel", "encourage", "comfort"]),
   ("creative", ["create", "design", "artistic", "creative", "imagine", "innovate", "craft", "build"]),
   ("analytical", ["analyze", "research", "investigate", "study", "examine", "solve", "logical"]),
   ("administrative", ["organize", "plan", "schedule", "coordinate", "detail", "systematic"]),
   ("technical", ["technical", "technology", "programming", "engineering", "computing", "digital"])]

/-- The `passion_keywords` table of `SkillsPassionsAnalyzer.__init__`. -/
def passionKeywords : List (String × List String) :=
  [("people", ["people", "relationships", "community", "social", "family", "friends", "connection"]),
   ("justice", ["justice", "fair", "equality", "rights", "advocacy", "change", "reform"]),
   ("nature", ["nature", "environment", "outdoors", "animals", "earth", "conservation"]),
   ("creativity", ["art", "music", "creative", "beauty", "expression", "imagination", "design"]),
   ("learning", ["learn", "knowledge", "education", "study", "growth", "discovery", "wisdom"]),
   ("service", ["serve", "volunteer", "giving", "ministry", "mission", "charity", "helping"]),
   ("innovation", ["innovation", "technology", "progress", "future", "advancement", "improvement"]),
   ("healing", ["health", "healing", "wellness", "medical", "therapy", "recovery", "wholeness"])]

/-- Number of keywords of one category contained in a lower-cased response
(`extract_themes` adds 1 per contained keyword). -/
def categoryHits (kws : List String) (respLower : List Char) : Nat :=
  (kws.filter (fun kw => listContains respLower kw.data)).length

/-- Increment a counter key of the insertion-ordered themes dict
(`defaultdict(int)`: a fresh key is appended at the end). -/
def bumpTheme (l : List (String × Nat)) (k : String) (n : Nat) : List (String × Nat) :=
  match l with
  | [] => [(k, n)]
  | (k0, v) :: rest => if k0 = k then (k0, v + n) :: rest else (k0, v) :: bumpTheme rest k n

/-- One keyword-table pass of `extract_themes` over a single response: each
category with at least one hit bumps its prefixed key by its hit count (the
source adds 1 per keyword inside the loop; the net count and the key creation
order are the same). -/
def themeCatFold (pre : String) (low : List Char) (acc : List (String × Nat))
    (table : List (String × List String)) : List (String × Nat) :=
  table.foldl (fun a c =>
    if categoryHits c.2 low = 0 then a else bumpTheme a (pre ++ c.1) (categoryHits c.2 low)) acc

/-- Python `SkillsPassionsAnalyzer.extract_themes`: per response, the skill
table then the passion table, accumulating counts into the insertion-ordered
dict. -/
def extractThemes (resps : List String) : List (String × Nat) :=
  resps.foldl (fun acc resp =>
    themeCatFold "passion_" (lowerData resp)
      (themeCatFold "skill_" (lowerData resp) acc skillKeywords) passionKeywords) []

/-- Stable descending insertion by count (`sorted(key=lambda x: x[1],
reverse=True)` is a stable descending sort). -/
def insertByCountDesc (x : String × Nat) : List (String × Nat) → List (String × Nat)
  | [] => [x]
  | y :: ys => if y.2 < x.2 then x :: y :: ys else y :: insertByCountDesc x ys

/-- Stable descending sort by count. -/
def sortByCountDesc (l : List (String × Nat)) : List (String × Nat) :=
  l.foldl (fun acc x => insertByCountDesc x acc) []

/-- Result shape shared by `analyze_skills` (raw_responses / themes /
top_skills / skill_scores) and `analyze_passions` (raw_responses / themes /
top_passions / passion_scores). -/
structure ThemeAnalysis where
  rawResponses : List String
  themes : List (String × Nat)
  topCategories : List String
  categoryScores : List (String × Nat)
deriving DecidableEq

/-- Python `SkillsPassionsAnalyzer.analyze_skills`; the empty-input branch
returns the empty dict, modelled as `none`. -/
def analyzeSkills (skillsResponses : List AnswerRec) : Option ThemeAnalysis :=
  match skillsResponses with
  | [] => none
  | _ =>
      let texts := skillsResponses.map (fun r => r.response)
      let themes := extractThemes texts
      let skillThemes := themes.filterMap (fun kv =>
        if "skill_".data.isPrefixOf kv.1.data then
          some (String.mk (kv.1.data.drop 6), kv.2)
        else none)
      let top := (sortByCountDesc skillThemes).take 3
      some ⟨texts, skillThemes, top.map (fun kv => kv.1), top⟩

/-- Python `SkillsPassionsAnalyzer.analyze_passions`. -/
def analyzePassions (passionResponses : List AnswerRec) : Option ThemeAnalysis :=
  match passionResponses with
  | [] => none
  | _ =>
      let texts := passionResponses.map (fun r => r.response)
      let themes := extractThemes texts
      let passionThemes := themes.filterMap (fun kv =>
        if "passion_".data.isPrefixOf kv.1.data then
          some (String.mk (kv.1.data.drop 8), kv.2)
        else none)
      let top := (sortByCountDesc passionThemes).take 3
      some ⟨texts, passionThemes, top.map (fun kv => kv.1), top⟩

/-- Python `user_responses.get(stage, [])`. -/
def urGet (ur : UserResponses) (stage : String) : List AnswerRec :=
  (lookupAssoc ur stage).getD []

/-- The skills analysis fed into scoring
(`analysis['skills_analysis']` in `calculate_gift_scores`). -/
def skillsAnalysisOf (ur : UserResponses) : Option ThemeAnalysis :=
  analyzeSkills (urGet ur "skills_assessment")

/-- The passions analysis fed into scoring. -/
def passionsAnalysisOf (ur : UserResponses) : Option ThemeAnalysis :=
  analyzePassions (urGet ur "passion_exploration")

/-- Python `analysis.get('top_skills', [])` / `top_passions`: the categories of
an optional analysis, empty when the analysis itself is the empty dict. -/
def topCategoriesOf (o : Option ThemeAnalysis) : List String :=
  match o with
  | none => []
  | some a => a.topCategories

/- ===================== scoring_system.py : SpiritualGiftsAssessment ===================== -/

/-- One entry of the `gifts_framework` (its scoring-relevant fields). -/
structure GiftInfo where
  description : String
  keySkills : List String
  keyPassions : List String
  keyValues : List String
  behavioralMarkers : List String
  typicalExpressions : List String
deriving DecidableEq

/-- The `teaching` gift of the framework. -/
def teachingGift : GiftInfo :=
  ⟨"The ability to understand and communicate truth effectively",
   ["teaching", "communication", "analytical"],
   ["learning", "people"],
   ["truth", "growth", "education", "understanding"],
   ["Others seek you out for explanations",
    "You enjoy breaking down complex concepts",
    "You feel satisfied when others understand",
    "You naturally use examples and illustrations"],
   ["Formal teaching or training", "Mentoring and coaching",
    "Writing instructional content", "Creating educational resources"]⟩

/-- The `leadership` gift of the framework. -/
def leadershipGift : GiftInfo :=
  ⟨"The ability to inspire and guide others toward goals",
   ["leadership", "communication", "administrative"],
   ["people", "service", "justice"],
   ["vision", "purpose", "teamwork", "progress"],
   ["People naturally follow your direction",
    "You see the big picture and future possibilities",
    "You motivate others to achieve more",
    "You take initiative in group situations"],
   ["Team or organization leadership", "Project management",
    "Community organizing", "Visionary planning"]⟩

/-- The `mercy` gift of the framework. -/
def mercyGift : GiftInfo :=
  ⟨"Deep compassion that moves you to help those who suffer",
   ["helping", "communication"],
   ["people", "healing", "justice"],
   ["compassion", "kindness", "healing", "restoration"],
   ["You are deeply moved by others suffering",
    "You offer comfort naturally",
    "You attract people who need encouragement",
    "You see good in difficult people"],
   ["Counseling and support", "Healthcare and healing",
    "Working with marginalized people", "Crisis intervention"]⟩

/-- The `administration` gift of the framework. -/
def administrationGift : GiftInfo :=
  ⟨"The ability to organize and coordinate for effective ministry",
   ["administrative", "leadership", "analytical"],
   ["service", "people"],
   ["order", "efficiency", "stewardship", "service"],
   ["You naturally organize and systematize",
    "You see what needs to be done logistically",
    "You coordinate resources effectively",
    "You help others be more productive"],
   ["Event planning and coordination", "Business and operations management",
    "Resource allocation", "Systems development"]⟩

/-- The `serving` gift of the framework. -/
def servingGift : GiftInfo :=
  ⟨"Joy in meeting practical needs and supporting others",
   ["helping", "administrative"],
   ["service", "people"],
   ["service", "humility", "helpfulness", "support"],
   ["You prefer to work behind the scenes",
    "You notice practical needs others miss",
    "You find joy in helping tasks get done",
    "You work well under others leadership"],
   ["Volunteer coordination", "Hospitality and events",
    "Maintenance and support", "Administrative assistance"]⟩

/-- The `encouraging` gift of the framework. -/
def encouragingGift : GiftInfo :=
  ⟨"The ability to motivate and build up others",
   ["communication", "helping"],
   ["people", "healing"],
   ["hope", "growth", "potential", "encouragement"],
   ["You see potential in others",
    "You naturally motivate and inspire",
    "People feel better after talking with you",
    "You focus on solutions and possibilities"],
   ["Life coaching and mentoring", "Motivational speaking",
    "Counseling and therapy", "Team building and development"]⟩

/-- The `giving` gift of the framework. -/
def givingGift : GiftInfo :=
  ⟨"Joy in sharing resources generously for kingdom purposes",
   ["administrative", "analytical"],
   ["service", "justice"],
   ["generosity", "stewardship", "impact", "justice"],
   ["You give quietly and consistently",
    "You research where gifts will have most impact",
    "You motivate others to give",
    "You see resources as tools for good"],
   ["Philanthropy and donations", "Fundraising and development",
    "Financial planning for ministry", "Resource mobilization"]⟩

/-- The `creativity` gift of the framework. -/
def creativityGift : GiftInfo :=
  ⟨"Using artistic gifts to inspire and communicate truth",
   ["creative", "communication"],
   ["creativity", "people", "service"],
   ["beauty", "expression", "inspiration", "truth"],
   ["You express yourself through artistic means",
    "You use creativity to communicate deeper truths",
    "You inspire others through your art",
    "You see beauty and meaning in everyday things"],
   ["Visual and performing arts", "Creative writing and storytelling",
    "Design and aesthetics", "Worship and celebration arts"]⟩

/-- The fixed `gifts_framework` taxonomy, in declaration order. -/
def giftsFramework : List (String × GiftInfo) :=
  [("teaching", teachingGift), ("leadership", leadershipGift),
   ("mercy", mercyGift), ("administration", administrationGift),
   ("serving", servingGift), ("encouraging", encouragingGift),
   ("giving", givingGift), ("creativity", creativityGift)]

/-- The four weighted sub-scores (`score_components`). -/
structure ScoreComponents where
  skillsAlignment : ℚ
  passionsAlignment : ℚ
  valuesAlignment : ℚ
  responseContent : ℚ
deriving DecidableEq

/-- The scoring-relevant parts of the per-gift result dict. -/
structure ScoreData where
  totalScore : ℚ
  scoreComponents : ScoreComponents
  strength : String
  description : String
  typicalExpressions : List String
deriving DecidableEq

/-- The lower-cased values-stage text
(`' '.join(r.get('response','').lower() for r in values_responses)`). -/
def valuesTextOf (ur : UserResponses) : List Char :=
  List.intercalate [' '] ((urGet ur "values_clarification").map (fun r => lowerData r.response))

/-- The lower-cased full-corpus text used by the behavioral-marker pass. -/
def allTextOf (ur : UserResponses) : List Char :=
  List.intercalate [' '] ((ur.flatMap (fun kv => kv.2)).map (fun r => lowerData r.response))

/-- Does some word of the lower-cased, whitespace-split marker occur in the
text (`any(keyword in all_responses_text for keyword in marker.lower().split())`)? -/
def markerMatches (text : List Char) (marker : String) : Bool :=
  (splitWords (lowerData marker)).any (fun w => listContains text w)

/-- Python `round(x, 1)`; Python uses banker's rounding on exact half-tenths,
which never arise in the scores at issue here. -/
def roundTo1 (q : ℚ) : ℚ := (round (q * 10) : ℤ) / 10

/-- Python `SpiritualGiftsAssessment._categorize_gift_strength`. -/
def categorizeGiftStrength (score : ℚ) : String :=
  if 70 ≤ score then "Dominant"
  else if 50 ≤ score then "Strong"
  else if 30 ≤ score then "Moderate"
  else if 15 ≤ score then "Emerging"
  else "Low"

/-- Python `SpiritualGiftsAssessment._calculate_individual_gift_score`.  The
Python set intersections `user & required` are counted by filtering the
duplicate-free required list for membership in the derived top list. -/
def calculateIndividualGiftScore (gift : GiftInfo)
    (skillsAnalysis passionsAnalysis : Option ThemeAnalysis)
    (ur : UserResponses) : ScoreData :=
  let userSkills := topCategoriesOf skillsAnalysis
  let userPassions := topCategoriesOf passionsAnalysis
  let skillsAlignment : ℚ :=
    if ¬ userSkills.isEmpty ∧ ¬ gift.keySkills.isEmpty then
      ((gift.keySkills.filter (fun s => userSkills.contains s)).length : ℚ) /
        (gift.keySkills.length : ℚ) * 25
    else 0
  let passionsAlignment : ℚ :=
    if ¬ userPassions.isEmpty ∧ ¬ gift.keyPassions.isEmpty then
      ((gift.keyPassions.filter (fun s => userPassions.contains s)).length : ℚ) /
        (gift.keyPassions.length : ℚ) * 25
    else 0
  let valuesAlignment : ℚ :=
    if ¬ gift.keyValues.isEmpty then
      ((gift.keyValues.filter (fun v => listContains (valuesTextOf ur) v.data)).length : ℚ) /
        (gift.keyValues.length : ℚ) * 25
    else 0
  let responseContent : ℚ :=
    if ¬ gift.behavioralMarkers.isEmpty then
      ((gift.behavioralMarkers.filter (fun mk => markerMatches (allTextOf ur) mk)).length : ℚ) /
        (gift.behavioralMarkers.length : ℚ) * 25
    else 0
  let totalScore := skillsAlignment + passionsAlignment + valuesAlignment + responseContent
  { totalScore := roundTo1 totalScore
    scoreComponents := ⟨skillsAlignment, passionsAlignment, valuesAlignment, responseContent⟩
    strength := categorizeGiftStrength totalScore
    description := gift.description
    typicalExpressions := gift.typicalExpressions }

/-- Python `SpiritualGiftsAssessment.calculate_gift_scores`. -/
def calculateGiftScores (ur : UserResponses) : List (String × ScoreData) :=
  giftsFramework.map (fun g =>
    (g.1, calculateIndividualGiftScore g.2 (skillsAnalysisOf ur) (passionsAnalysisOf ur) ur))

/-- The minimal corpus of the C9 counterexample: the three skill substrings
and the three passion substrings, nothing else. -/
def urC9min : UserResponses :=
  [("skills_assessment", [⟨"teach explain mentor", "t0", 0⟩]),
   ("passion_exploration", [⟨"love learn education", "t1", 0⟩])]

/-- The counterexample corpus extended with all four teaching value keywords. -/
def urC9full : UserResponses :=
  [("skills_assessment", [⟨"teach explain mentor", "t0", 0⟩]),
   ("passion_exploration", [⟨"love learn education", "t1", 0⟩]),
   ("values_clarification", [⟨"truth growth education understanding", "t2", 0⟩])]

/- ===================== personality_profiler.py : PersonalityProfiler ===================== -/

/-- Python `PersonalityMarkers` dataclass. -/
structure PersonalityMarkers where
  wordCountAvg : ℚ
  emotionalLanguageFrequency : ℚ
  questionAskingFrequency : ℚ
  concreteVsAbstractRatio : ℚ
  uncertaintyIndicators : ℚ
  enthusiasmMarkers : ℚ
deriving DecidableEq

/-- Python `CommunicationStyle` enum, in declaration order. -/
inductive CommunicationStyle where
  | analytical
  | expressive
  | practical
  | reflective
deriving DecidableEq

/-- Declaration index of a style (dict insertion order in
`determine_communication_style`). -/
def styleIndex : CommunicationStyle → Nat
  | CommunicationStyle.analytical => 0
  | CommunicationStyle.expressive => 1
  | CommunicationStyle.practical => 2
  | CommunicationStyle.reflective => 3

/-- The additive analytical score of `determine_communication_style`. -/
def analyticalScore (m : PersonalityMarkers) : ℚ :=
  (if 6/10 < m.concreteVsAbstractRatio then (3:ℚ)/10 else 0) +
  (if 25 < m.wordCountAvg then (2:ℚ)/10 else 0) +
  (if m.emotionalLanguageFrequency < 3/100 then (2:ℚ)/10 else 0) +
  (if 3/10 < m.questionAskingFrequency then (2:ℚ)/10 else 0) +
  (if m.uncertaintyIndicators < 1/10 then (1:ℚ)/10 else 0)

/-- The additive expressive score. -/
def expressiveScore (m : PersonalityMarkers) : ℚ :=
  (if 1/100 < m.emotionalLanguageFrequency then (3:ℚ)/10 else 0) +
  (if 2/100 < m.enthusiasmMarkers then (3:ℚ)/10 else 0) +
  (if 20 < m.wordCountAvg then (2:ℚ)/10 else 0) +
  (if m.concreteVsAbstractRatio < 4/10 then (2:ℚ)/10 else 0)

/-- The additive practical score. -/
def practicalScore (m : PersonalityMarkers) : ℚ :=
  (if m.wordCountAvg < 15 then (3:ℚ)/10 else 0) +
  (if 7/10 < m.concreteVsAbstractRatio then (3:ℚ)/10 else 0) +
  (if m.emotionalLanguageFrequency < 4/100 then (2:ℚ)/10 else 0) +
  (if m.questionAskingFrequency < 2/10 then (2:ℚ)/10 else 0)

/-- The additive reflective score. -/
def reflectiveScore (m : PersonalityMarkers) : ℚ :=
  (if 15/100 < m.uncertaintyIndicators then (3:ℚ)/10 else 0) +
  (if 30 < m.wordCountAvg then (2:ℚ)/10 else 0) +
  (if 25/100 < m.questionAskingFrequency then (2:ℚ)/10 else 0) +
  (if m.concreteVsAbstractRatio < 5/10 then (2:ℚ)/10 else 0) +
  (if 3/100 < m.emotionalLanguageFrequency ∧ m.emotionalLanguageFrequency < 8/100
    then (1:ℚ)/10 else 0)

/-- The `style_scores` dict items, in insertion order. -/
def styleScoresList (m : PersonalityMarkers) : List (CommunicationStyle × ℚ) :=
  [(CommunicationStyle.analytical, analyticalScore m),
   (CommunicationStyle.expressive, expressiveScore m),
   (CommunicationStyle.practical, practicalScore m),
   (CommunicationStyle.reflective, reflectiveScore m)]

/-- Python `max(items, key=lambda x: x[1])`: scan keeping the current best,
replacing it only on a strictly greater key, so the first maximum wins. -/
def pyMaxBy : List (CommunicationStyle × ℚ) → (CommunicationStyle × ℚ) →
    (CommunicationStyle × ℚ)
  | [], best => best
  | x :: rest, best => pyMaxBy rest (if best.2 < x.2 then x else best)

/-- Python `PersonalityProfiler.determine_communication_style` (primary style
and its score, returned as the confidence). -/
def determineCommunicationStyle (m : PersonalityMarkers) :
    CommunicationStyle × ℚ :=
  match styleScoresList m with
  | [] => (CommunicationStyle.analytical, 0)
  | x :: rest => pyMaxBy rest x

/-- The default markers of `_default_markers`, used as a concrete witness. -/
def defaultMarkers : PersonalityMarkers :=
  ⟨20, 5/100, 2/10, 1/2, 1/10, 3/100⟩

/- ===================== Theorems ===================== -/

theorem lookupAssoc_updateAssoc_self {α : Type} (l : List (String × α)) (k : String)
    (f : α → α) : lookupAssoc (updateAssoc l k f) k = (lookupAssoc l k).map f := by
  induction l with
  | nil => simp [lookupAssoc, updateAssoc]
  | cons hd tl ih =>
      obtain ⟨k', v⟩ := hd
      by_cases h : k' = k
      · simp [lookupAssoc, updateAssoc, h]
      · simp [lookupAssoc, updateAssoc, h, ih]

theorem lookupAssoc_updateAssoc_ne {α : Type} (l : List (String × α)) (k k' : String)
    (f : α → α) (h : k' ≠ k) :
    lookupAssoc (updateAssoc l k f) k' = lookupAssoc l k' := by
  induction l with
  | nil => simp [lookupAssoc, updateAssoc]
  | cons hd tl ih =>
      obtain ⟨k₀, v⟩ := hd
      by_cases h0 : k₀ = k
      · subst h0
        simp only [updateAssoc, if_pos rfl, lookupAssoc]
        rw [if_neg (fun hk => h hk.symm), if_neg (fun hk => h hk.symm)]
      · simp [lookupAssoc, updateAssoc, h0, ih]

theorem advance_le (s : DiscoverySession) :
    s.currentStage ≤ (advanceToNextStage s).currentStage := by
  unfold advanceToNextStage
  split
  · simp only []
    omega
  · exact Nat.le_refl _

theorem advance_terminal (s : DiscoverySession) (h : stages.length ≤ s.currentStage) :
    advanceToNextStage s = s := by
  unfold advanceToNextStage
  rw [if_neg (Nat.not_lt.mpr h)]

/-- C1.  The stage index never decreases under any sequence of `advance`
(`_advance_to_next_stage`) calls, and once the index is past the last stage every
further `advance` call is a no-op, leaving the whole session state (index and
completion flags included) unchanged. -/
theorem advance_monotone_terminal_noop (s : DiscoverySession) (n : Nat) :
    s.currentStage ≤ (advanceToNextStage^[n] s).currentStage ∧
    (stages.length ≤ s.currentStage → advanceToNextStage^[n] s = s) := by
  constructor
  · induction n generalizing s with
    | zero => simp
    | succ m ih =>
        rw [Function.iterate_succ_apply]
        exact Nat.le_trans (advance_le s) (ih (advanceToNextStage s))
  · intro h
    exact Function.iterate_fixed (advance_terminal s h) n

/-- Witness for C1 at concrete sessions: three advances from a terminal session
change nothing, and the index is monotone from the initial session. -/
theorem advance_monotone_terminal_noop_witness :
    advanceToNextStage^[3] termSession = termSession ∧
    (initSession "s").currentStage ≤
      (advanceToNextStage^[2] (initSession "s")).currentStage :=
  ⟨(advance_monotone_terminal_noop termSession 3).2 (by decide),
   (advance_monotone_terminal_noop (initSession "s") 2).1⟩

/-- C2.  `process_response` in the terminal state rejects every input, returning
the not-accepted signal and leaving the session (hence every per-stage answer
sequence and counter) unchanged; in a non-terminal state with well-formed
dictionaries it appends exactly one answer to the current stage's sequence,
increments exactly that stage's question counter, and returns the accepted
signal. -/
theorem processResponse_terminal_reject_else_append (s : DiscoverySession)
    (text ts : String) :
    (stages.length ≤ s.currentStage → processResponse s text ts = (s, false)) ∧
    (s.currentStage < stages.length →
      ∀ l p, lookupAssoc s.userResponses (stageKey s) = some l →
        lookupAssoc s.stageProgress (stageKey s) = some p →
        (processResponse s text ts).2 = true ∧
        lookupAssoc (processResponse s text ts).1.userResponses (stageKey s) =
          some (l ++ [⟨text, ts, p.questionCount⟩]) ∧
        lookupAssoc (processResponse s text ts).1.stageProgress (stageKey s) =
          some { p with questionCount := p.questionCount + 1 } ∧
        (∀ k, k ≠ stageKey s →
          lookupAssoc (processResponse s text ts).1.userResponses k =
            lookupAssoc s.userResponses k ∧
          lookupAssoc (processResponse s text ts).1.stageProgress k =
            lookupAssoc s.stageProgress k)) := by
  constructor
  · intro h
    unfold processResponse
    rw [if_pos h]
  · intro hlt l p hl hp
    have hnot : ¬ stages.length ≤ s.currentStage := Nat.not_le.mpr hlt
    refine ⟨?_, ?_, ?_, ?_⟩
    · simp [processResponse, if_neg hnot]
    · simp [processResponse, if_neg hnot, lookupAssoc_updateAssoc_self, hl, hp]
    · simp [processResponse, if_neg hnot, lookupAssoc_updateAssoc_self, hp]
    · intro k hk
      constructor
      · simp [processResponse, if_neg hnot, lookupAssoc_updateAssoc_ne _ _ _ _ hk]
      · simp [processResponse, if_neg hnot, lookupAssoc_updateAssoc_ne _ _ _ _ hk]

/-- Witness for C2: at the fresh session (key present with empty sequence and a
zero counter) a response is accepted and recorded, and at the terminal session
it is rejected. -/
theorem processResponse_terminal_reject_else_append_witness :
    (processResponse termSession "hi" "t0" = (termSession, false)) ∧
    ((processResponse (initSession "s") "hi" "t0").2 = true ∧
      lookupAssoc (processResponse (initSession "s") "hi" "t0").1.userResponses
        (stageKey (initSession "s")) = some [⟨"hi", "t0", 0⟩]) :=
  ⟨(processResponse_terminal_reject_else_append termSession "hi" "t0").1 (by decide),
   by
    have h := (processResponse_terminal_reject_else_append (initSession "s") "hi" "t0").2
      (by decide) [] ⟨false, 0⟩ (by decide) (by decide)
    exact ⟨h.1, h.2.1⟩⟩

/-- C3.  Serializing a session (stage machine state via `save_session`, insight
log and theme map via `save_context`) and loading the resulting records back
reproduces the identical stage index, per-stage answer sequences, insight log
and theme map, whatever session objects receive the load. -/
theorem save_load_roundtrip (s s' : DiscoverySession) (created : String)
    (c c' : ContextState) :
    (loadSession s' (saveSession s created)).currentStage = s.currentStage ∧
    (loadSession s' (saveSession s created)).userResponses = s.userResponses ∧
    (loadContext c' (saveContext c)).insights = c.insights ∧
    (loadContext c' (saveContext c)).themes = c.themes := by
  refine ⟨rfl, rfl, ?_, ?_⟩
  · show (c.insights.map insightToRecord).map recordToInsight = c.insights
    induction c.insights with
    | nil => rfl
    | cons hd tl ih => simp_all [insightToRecord, recordToInsight]
  · show (c.themes.map (fun kv => (kv.1, themeToRecord kv.2))).map
        (fun kv => (kv.1, recordToTheme kv.2)) = c.themes
    induction c.themes with
    | nil => rfl
    | cons hd tl ih => simp_all [themeToRecord, recordToTheme]

theorem lookupAssoc_append_single_ne {α : Type} (l : List (String × α)) (k : String)
    (v : α) (k' : String) (h : k ≠ k') :
    lookupAssoc (l ++ [(k, v)]) k' = lookupAssoc l k' := by
  induction l with
  | nil => simp [lookupAssoc, h]
  | cons hd tl ih =>
      obtain ⟨k₀, v₀⟩ := hd
      by_cases h0 : k₀ = k'
      · simp [lookupAssoc, h0]
      · simp [lookupAssoc, h0, ih]

theorem lookupAssoc_append_single_self {α : Type} (l : List (String × α)) (k : String)
    (v : α) (h : lookupAssoc l k = none) :
    lookupAssoc (l ++ [(k, v)]) k = some v := by
  induction l with
  | nil => simp [lookupAssoc]
  | cons hd tl ih =>
      obtain ⟨k₀, v₀⟩ := hd
      by_cases h0 : k₀ = k
      · simp [lookupAssoc, h0] at h
      · simp [lookupAssoc, h0] at h ⊢
        exact ih h

theorem lookupAssoc_append_single_cases {α : Type} (l : List (String × α)) (k : String)
    (v : α) (k' : String) (t : α) (h : lookupAssoc (l ++ [(k, v)]) k' = some t) :
    lookupAssoc l k' = some t ∨ t = v := by
  induction l with
  | nil =>
      simp [lookupAssoc] at h
      rcases h with ⟨h1, h2⟩
      exact Or.inr h2.symm
  | cons hd tl ih =>
      obtain ⟨k₀, v₀⟩ := hd
      by_cases h0 : k₀ = k'
      · simp [lookupAssoc, h0] at h ⊢
        exact Or.inl h
      · simp [lookupAssoc, h0] at h ⊢
        exact ih h

theorem lookupAssoc_some_mem {α : Type} (l : List (String × α)) (k : String) (v : α)
    (h : lookupAssoc l k = some v) : (k, v) ∈ l := by
  induction l with
  | nil => simp [lookupAssoc] at h
  | cons hd tl ih =>
      obtain ⟨k₀, v₀⟩ := hd
      by_cases h0 : k₀ = k
      · subst h0
        simp [lookupAssoc] at h
        simp [h]
      · simp [lookupAssoc, h0] at h
        exact List.mem_cons_of_mem _ (ih h)

theorem lookupAssoc_none_forall {α : Type} (l : List (String × α)) (k : String)
    (h : lookupAssoc l k = none) : ∀ c ∈ l, c.1 ≠ k := by
  induction l with
  | nil => simp
  | cons hd tl ih =>
      obtain ⟨k₀, v₀⟩ := hd
      by_cases h0 : k₀ = k
      · simp [lookupAssoc, h0] at h
      · simp [lookupAssoc, h0] at h
        intro c hc
        rcases List.mem_cons.mp hc with hc | hc
        · rw [hc]; exact h0
        · exact ih h c hc

theorem lookupAssoc_updateAssoc_cases {α : Type} (l : List (String × α)) (k : String)
    (f : α → α) (k' : String) (t : α)
    (h : lookupAssoc (updateAssoc l k f) k' = some t) :
    lookupAssoc l k' = some t ∨ ∃ t₀, lookupAssoc l k' = some t₀ ∧ t = f t₀ := by
  by_cases hk : k' = k
  · subst hk
    rw [lookupAssoc_updateAssoc_self] at h
    cases h0 : lookupAssoc l k' with
    | none => rw [h0] at h; simp at h
    | some t₀ =>
        rw [h0] at h
        simp at h
        exact Or.inr ⟨t₀, rfl, h.symm⟩
  · rw [lookupAssoc_updateAssoc_ne _ _ _ _ hk] at h
    exact Or.inl h

theorem updateThemeStep_lookup_ne (input stage : String)
    (th : List (String × ConversationTheme)) (cat : String × List String)
    (name : String) (h : cat.1 ≠ name) :
    lookupAssoc (updateThemeStep input stage th cat) name = lookupAssoc th name := by
  unfold updateThemeStep
  split
  · rfl
  · cases hm : lookupAssoc th cat.1 with
    | none =>
        simp only [hm]
        exact lookupAssoc_append_single_ne _ _ _ _ h
    | some t =>
        simp only [hm]
        exact lookupAssoc_updateAssoc_ne _ _ _ _ (fun hk => h hk.symm)

theorem updateThemeStep_lookup_self (input stage : String)
    (th : List (String × ConversationTheme)) (name : String) (kws : List String) :
    lookupAssoc (updateThemeStep input stage th (name, kws)) name =
      stepResult input stage name kws (lookupAssoc th name) := by
  unfold updateThemeStep stepResult
  split
  · rfl
  · cases hm : lookupAssoc th name with
    | none =>
        simp only [hm]
        exact lookupAssoc_append_single_self _ _ _ hm
    | some t =>
        simp only [hm]
        rw [lookupAssoc_updateAssoc_self, hm]
        rfl

theorem foldl_step_lookup_notmem (input stage : String)
    (KL : List (String × List String)) (th : List (String × ConversationTheme))
    (name : String) (h : ∀ c ∈ KL, c.1 ≠ name) :
    lookupAssoc (KL.foldl (updateThemeStep input stage) th) name =
      lookupAssoc th name := by
  induction KL generalizing th with
  | nil => rfl
  | cons hd tl ih =>
      rw [List.foldl_cons, ih _ (fun c hc => h c (List.mem_cons_of_mem _ hc))]
      exact updateThemeStep_lookup_ne _ _ _ _ _ (h hd (List.mem_cons_self _ _))

theorem foldl_step_lookup_mem (input stage : String)
    (KL : List (String × List String)) (th : List (String × ConversationTheme))
    (name : String) (kws : List String) (hnd : (KL.map Prod.fst).Nodup)
    (hm : (name, kws) ∈ KL) :
    lookupAssoc (KL.foldl (updateThemeStep input stage) th) name =
      stepResult input stage name kws (lookupAssoc th name) := by
  induction KL generalizing th with
  | nil => simp at hm
  | cons hd tl ih =>
      rw [List.map_cons, List.nodup_cons] at hnd
      rcases List.mem_cons.mp hm with heq | htl
      · subst heq
        rw [List.foldl_cons]
        have htl_ne : ∀ c ∈ tl, c.1 ≠ name := by
          intro c hc hce
          have hmem : c.1 ∈ tl.map Prod.fst := List.mem_map_of_mem Prod.fst hc
          rw [hce] at hmem
          exact hnd.1 hmem
        rw [foldl_step_lookup_notmem _ _ _ _ _ htl_ne]
        exact updateThemeStep_lookup_self _ _ _ _ _
      · have hne : hd.1 ≠ name := by
          intro hce
          have hmem : (name, kws).1 ∈ tl.map Prod.fst :=
            List.mem_map_of_mem Prod.fst htl
          rw [← hce] at hmem
          exact hnd.1 hmem
        rw [List.foldl_cons, ih _ hnd.2 htl,
          updateThemeStep_lookup_ne _ _ _ _ _ hne]

theorem updateThemes_lookup_nokey (th : List (String × ConversationTheme))
    (input stage name : String) (hjk : lookupAssoc themeKeywords name = none) :
    lookupAssoc (updateThemes th input stage) name = lookupAssoc th name :=
  foldl_step_lookup_notmem _ _ _ _ _ (lookupAssoc_none_forall _ _ hjk)

theorem updateThemes_lookup_key (th : List (String × ConversationTheme))
    (input stage name : String) (kws : List String)
    (hjk : lookupAssoc themeKeywords name = some kws) :
    lookupAssoc (updateThemes th input stage) name =
      stepResult input stage name kws (lookupAssoc th name) :=
  foldl_step_lookup_mem _ _ _ _ _ _ (by decide) (lookupAssoc_some_mem _ _ _ hjk)

theorem strengthenTheme_bounds (input : String) (t : ConversationTheme)
    (h : 1 ≤ t.strength ∧ t.strength ≤ 5) :
    1 ≤ (strengthenTheme input t).strength ∧ (strengthenTheme input t).strength ≤ 5 := by
  unfold strengthenTheme
  simp only []
  split
  · constructor <;> norm_num
  · constructor <;> linarith [h.1, h.2]

theorem updateThemeStep_preserves_inv (input stage : String)
    (th : List (String × ConversationTheme)) (cat : String × List String)
    (h : themeStrengthInv th) : themeStrengthInv (updateThemeStep input stage th cat) := by
  intro nm t hl
  unfold updateThemeStep at hl
  split at hl
  · exact h _ _ hl
  · cases hm : lookupAssoc th cat.1 with
    | none =>
        rw [hm] at hl
        rcases lookupAssoc_append_single_cases _ _ _ _ _ hl with hold | hnew
        · exact h _ _ hold
        · rw [hnew]
          constructor <;> norm_num
    | some t₀ =>
        rw [hm] at hl
        rcases lookupAssoc_updateAssoc_cases _ _ _ _ _ hl with hold | ⟨t₁, hl₁, ht⟩
        · exact h _ _ hold
        · rw [ht]
          exact strengthenTheme_bounds _ _ (h _ _ hl₁)

theorem updateThemes_preserves_inv (th : List (String × ConversationTheme))
    (input stage : String) (h : themeStrengthInv th) :
    themeStrengthInv (updateThemes th input stage) := by
  unfold updateThemes
  generalize themeKeywords = KL
  induction KL generalizing th with
  | nil => exact h
  | cons hd tl ih =>
      rw [List.foldl_cons]
      exact ih _ (updateThemeStep_preserves_inv _ _ _ _ h)

theorem runThemeCalls_inv (calls : List (String × String)) :
    themeStrengthInv (runThemeCalls calls) := by
  unfold runThemeCalls
  have base : themeStrengthInv ([] : List (String × ConversationTheme)) := by
    intro nm t hl
    simp [lookupAssoc] at hl
  generalize ([] : List (String × ConversationTheme)) = th at base ⊢
  induction calls generalizing th with
  | nil => exact base
  | cons hd tl ih =>
      rw [List.foldl_cons]
      exact ih _ (updateThemes_preserves_inv _ _ _ base)

/-- C4.  Theme lifecycle under any sequence of exchange recordings: a theme is
created with strength exactly 1.0 on the first call whose subject text contains
one of its keywords, each later matching call strengthens it by 0.5 clamped at
the ceiling 5.0 (`strengthenTheme`), non-matching calls leave it untouched, the
strength never decreases, and on every reachable dictionary all strengths stay
within 1.0 and 5.0. -/
theorem theme_strength_monotone_capped (calls : List (String × String))
    (input stage name : String) :
    (themeMatches name input = true →
      lookupAssoc (runThemeCalls calls) name = none →
      lookupAssoc (updateThemes (runThemeCalls calls) input stage) name =
        some ⟨name, [input], 1, stage⟩) ∧
    (themeMatches name input = true →
      ∀ t, lookupAssoc (runThemeCalls calls) name = some t →
        lookupAssoc (updateThemes (runThemeCalls calls) input stage) name =
          some (strengthenTheme input t)) ∧
    (themeMatches name input = false →
      lookupAssoc (updateThemes (runThemeCalls calls) input stage) name =
        lookupAssoc (runThemeCalls calls) name) ∧
    (∀ t t', lookupAssoc (runThemeCalls calls) name = some t →
      lookupAssoc (updateThemes (runThemeCalls calls) input stage) name = some t' →
        t.strength ≤ t'.strength) ∧
    (∀ t, lookupAssoc (updateThemes (runThemeCalls calls) input stage) name = some t →
      1 ≤ t.strength ∧ t.strength ≤ 5) := by
  have hmatches : ∀ kws, lookupAssoc themeKeywords name = some kws →
      themeMatches name input =
        !(kws.filter (fun kw => listContains (lowerData input) kw.data)).isEmpty := by
    intro kws hk
    unfold themeMatches
    rw [hk]
  refine ⟨?_, ?_, ?_, ?_, ?_⟩
  · intro hm hnone
    cases hjk : lookupAssoc themeKeywords name with
    | none => unfold themeMatches at hm; rw [hjk] at hm; simp at hm
    | some kws =>
        rw [hmatches kws hjk] at hm
        simp only [Bool.not_eq_true'] at hm
        rw [updateThemes_lookup_key _ _ _ _ _ hjk]
        unfold stepResult
        rw [if_neg (by rw [hm]; exact Bool.false_ne_true), hnone]
  · intro hm t hsome
    cases hjk : lookupAssoc themeKeywords name with
    | none => unfold themeMatches at hm; rw [hjk] at hm; simp at hm
    | some kws =>
        rw [hmatches kws hjk] at hm
        simp only [Bool.not_eq_true'] at hm
        rw [updateThemes_lookup_key _ _ _ _ _ hjk]
        unfold stepResult
        rw [if_neg (by rw [hm]; exact Bool.false_ne_true), hsome]
  · intro hm
    cases hjk : lookupAssoc themeKeywords name with
    | none => exact updateThemes_lookup_nokey _ _ _ _ hjk
    | some kws =>
        rw [hmatches kws hjk] at hm
        have hm2 : (kws.filter
            (fun kw => listContains (lowerData input) kw.data)).isEmpty = true := by
          cases hx : (kws.filter (fun kw => listContains (lowerData input) kw.data)).isEmpty
          · rw [hx] at hm; simp at hm
          · rfl
        rw [updateThemes_lookup_key _ _ _ _ _ hjk]
        unfold stepResult
        rw [if_pos hm2]
  · intro t t' ht ht'
    have hinv := runThemeCalls_inv calls name t ht
    cases hjk : lookupAssoc themeKeywords name with
    | none =>
        rw [updateThemes_lookup_nokey _ _ _ _ hjk, ht] at ht'
        injection ht' with h
        rw [← h]
    | some kws =>
        rw [updateThemes_lookup_key _ _ _ _ _ hjk] at ht'
        unfold stepResult at ht'
        by_cases hemp :
            ((kws.filter (fun kw => listContains (lowerData input) kw.data)).isEmpty = true)
        · rw [if_pos hemp, ht] at ht'
          injection ht' with h
          rw [← h]
        · rw [if_neg hemp, ht] at ht'
          injection ht' with h
          rw [← h]
          unfold strengthenTheme
          simp only []
          split
          · exact hinv.2
          · linarith
  · intro t ht
    exact updateThemes_preserves_inv _ _ _ (runThemeCalls_inv calls) name t ht

/-- Witness for C4 at a concrete history: after one matching call the teaching
theme exists with strength 1.0, and a second matching call strengthens it to 1.5. -/
theorem theme_strength_monotone_capped_witness :
    themeMatches "teaching" "i explain stuff" = true ∧
    lookupAssoc (updateThemes (runThemeCalls [("i teach things", "introduction")])
        "i explain stuff" "skills_assessment") "teaching" =
      some ⟨"teaching", ["i teach things", "i explain stuff"], 3/2, "introduction"⟩ := by
  constructor
  · decide
  · have h := (theme_strength_monotone_capped [("i teach things", "introduction")]
      "i explain stuff" "skills_assessment" "teaching").2.1 (by decide)
      ⟨"teaching", ["i teach things"], 1, "introduction"⟩ (by decide)
    rw [h]
    unfold strengthenTheme
    norm_num

/-- C7 counterexample.  One exchange whose text contains two patterns of the
same micro-signal category ("i love" and "makes me feel alive", both in
`passion_indicator`) creates two Insights for that category in a single call:
the extraction loop has no per-category break, so the first match does not win. -/
theorem insight_single_per_category_counterexample :
    ¬ (((extractInsightsFromExchange [] "i love this and it makes me feel alive"
          "passion_exploration" "t0").filter
        (fun i => i.insightType == "passion_indicator")).length ≤ 1) := by
  decide

theorem newInsightsFor_cons (ty : String) (hd : String × ℚ) (tl : List (String × ℚ))
    (input stage ts : String) :
    newInsightsFor ty (hd :: tl) input stage ts =
      (if listContains (lowerData input) hd.1.data ∧ insightThreshold ≤ hd.2
        then [(⟨input, stage, hd.2, ts, ty⟩ : ContextInsight)] else []) ++
      newInsightsFor ty tl input stage ts := by
  unfold newInsightsFor
  rw [List.filterMap_cons]
  split_ifs with hc
  · simp
  · simp

theorem newInsightsFor_filter_other (ty : String) (pats : List (String × ℚ))
    (input stage ts ty' : String) (h : ty ≠ ty') :
    (newInsightsFor ty pats input stage ts).filter
      (fun i => i.insightType == ty') = [] := by
  induction pats with
  | nil => rfl
  | cons hd tl ih =>
      rw [newInsightsFor_cons, List.filter_append, ih, List.append_nil]
      split_ifs with hc
      · rw [List.filter_cons]
        have hb : ((⟨input, stage, hd.2, ts, ty⟩ : ContextInsight).insightType
            == ty') = false := beq_eq_false_iff_ne.mpr h
        rw [hb]
        simp
      · rfl

theorem newInsightsFor_filter_self (ty : String) (pats : List (String × ℚ))
    (input stage ts : String) :
    (newInsightsFor ty pats input stage ts).filter
      (fun i => i.insightType == ty) = newInsightsFor ty pats input stage ts := by
  induction pats with
  | nil => rfl
  | cons hd tl ih =>
      rw [newInsightsFor_cons, List.filter_append, ih]
      split_ifs with hc
      · rw [List.filter_cons]
        have hb : ((⟨input, stage, hd.2, ts, ty⟩ : ContextInsight).insightType
            == ty) = true := beq_self_eq_true ty
        rw [hb]
        simp
      · rfl

theorem newInsightsFor_eq_filter_map (ty : String) (pats : List (String × ℚ))
    (input stage ts : String) :
    newInsightsFor ty pats input stage ts =
      (pats.filter (fun pc => listContains (lowerData input) pc.1.data &&
          decide (insightThreshold ≤ pc.2))).map
        (fun pc => ⟨input, stage, pc.2, ts, ty⟩) := by
  induction pats with
  | nil => rfl
  | cons hd tl ih =>
      rw [newInsightsFor_cons, List.filter_cons]
      rcases Bool.eq_false_or_eq_true (listContains (lowerData input) hd.1.data)
        with hc1 | hc1 <;>
        by_cases hc2 : insightThreshold ≤ hd.2 <;>
        simp [hc1, hc2, ih]

/-- C7 amended.  On one exchange-recording call the micro-signal pass appends,
for every category and for every pattern of that category whose text occurs in
the lower-cased subject input and whose fixed weight is at or above the 0.6
persistence threshold, exactly one Insight carrying that pattern's weight (so
one category can gain several Insights in a single call, one per matching
pattern, in table order); the previous log is retained unchanged in front. -/
theorem insight_per_matching_pattern (prev : List ContextInsight)
    (input stage ts ty : String) (pats : List (String × ℚ))
    (h : (ty, pats) ∈ insightPatterns) :
    extractInsightsFromExchange prev input stage ts =
      prev ++ (insightPatterns.flatMap fun tp =>
        newInsightsFor tp.1 tp.2 input stage ts) ∧
    ((insightPatterns.flatMap fun tp =>
        newInsightsFor tp.1 tp.2 input stage ts).filter
      (fun i => i.insightType == ty)) =
      (pats.filter (fun pc => listContains (lowerData input) pc.1.data &&
          decide (insightThreshold ≤ pc.2))).map
        (fun pc => ⟨input, stage, pc.2, ts, ty⟩) := by
  refine ⟨rfl, ?_⟩
  have hexp : (insightPatterns.flatMap fun tp =>
      newInsightsFor tp.1 tp.2 input stage ts) =
      newInsightsFor "strong_skill_indicator" strongSkillPatterns input stage ts ++
      (newInsightsFor "passion_indicator" passionPatterns input stage ts ++
      (newInsightsFor "value_indicator" valuePatterns input stage ts ++
      (newInsightsFor "gift_indicator" giftPatterns input stage ts ++ []))) := rfl
  have hmem : (ty = "strong_skill_indicator" ∧ pats = strongSkillPatterns) ∨
      (ty = "passion_indicator" ∧ pats = passionPatterns) ∨
      (ty = "value_indicator" ∧ pats = valuePatterns) ∨
      (ty = "gift_indicator" ∧ pats = giftPatterns) := by
    simpa [insightPatterns, Prod.ext_iff] using h
  rw [hexp, List.append_nil, List.filter_append, List.filter_append,
    List.filter_append]
  rcases hmem with ⟨h1, h2⟩ | ⟨h1, h2⟩ | ⟨h1, h2⟩ | ⟨h1, h2⟩ <;> subst h1 <;> subst h2
  · rw [newInsightsFor_filter_self "strong_skill_indicator" strongSkillPatterns
        input stage ts,
      newInsightsFor_filter_other "passion_indicator" passionPatterns
        input stage ts "strong_skill_indicator" (by decide),
      newInsightsFor_filter_other "value_indicator" valuePatterns
        input stage ts "strong_skill_indicator" (by decide),
      newInsightsFor_filter_other "gift_indicator" giftPatterns
        input stage ts "strong_skill_indicator" (by decide),
      newInsightsFor_eq_filter_map]
    simp
  · rw [newInsightsFor_filter_other "strong_skill_indicator" strongSkillPatterns
        input stage ts "passion_indicator" (by decide),
      newInsightsFor_filter_self "passion_indicator" passionPatterns input stage ts,
      newInsightsFor_filter_other "value_indicator" valuePatterns
        input stage ts "passion_indicator" (by decide),
      newInsightsFor_filter_other "gift_indicator" giftPatterns
        input stage ts "passion_indicator" (by decide),
      newInsightsFor_eq_filter_map]
    simp
  · rw [newInsightsFor_filter_other "strong_skill_indicator" strongSkillPatterns
        input stage ts "value_indicator" (by decide),
      newInsightsFor_filter_other "passion_indicator" passionPatterns
        input stage ts "value_indicator" (by decide),
      newInsightsFor_filter_self "value_indicator" valuePatterns input stage ts,
      newInsightsFor_filter_other "gift_indicator" giftPatterns
        input stage ts "value_indicator" (by decide),
      newInsightsFor_eq_filter_map]
    simp
  · rw [newInsightsFor_filter_other "strong_skill_indicator" strongSkillPatterns
        input stage ts "gift_indicator" (by decide),
      newInsightsFor_filter_other "passion_indicator" passionPatterns
        input stage ts "gift_indicator" (by decide),
      newInsightsFor_filter_other "value_indicator" valuePatterns
        input stage ts "gift_indicator" (by decide),
      newInsightsFor_filter_self "gift_indicator" giftPatterns input stage ts,
      newInsightsFor_eq_filter_map]
    simp

/-- Witness for C7 amended at the counterexample input: the passion category
receives exactly the two matching patterns' insights, with weights 0.8 and 0.9. -/
theorem insight_per_matching_pattern_witness :
    extractInsightsFromExchange [] "i love this and it makes me feel alive" "p" "t0" =
      [] ++ (insightPatterns.flatMap fun tp =>
        newInsightsFor tp.1 tp.2 "i love this and it makes me feel alive" "p" "t0") ∧
    ((insightPatterns.flatMap fun tp =>
        newInsightsFor tp.1 tp.2 "i love this and it makes me feel alive" "p" "t0").filter
      (fun i => i.insightType == "passion_indicator")) =
      ((passionPatterns.filter
          (fun pc => listContains (lowerData "i love this and it makes me feel alive")
            pc.1.data && decide (insightThreshold ≤ pc.2))).map
        (fun pc => ⟨"i love this and it makes me feel alive", "p", pc.2, "t0",
          "passion_indicator"⟩)) :=
  insight_per_matching_pattern [] "i love this and it makes me feel alive" "p" "t0"
    "passion_indicator" passionPatterns (by decide)

theorem foldl_evidence_score (l : List String) (pre : String) (c : ℚ)
    (corpus : List Char) (a : List String × ℚ) :
    l.foldl (fun acc kw =>
        if listContains corpus kw.data then (acc.1 ++ [pre ++ kw], acc.2 + c) else acc) a =
      (a.1 ++ (l.filter (fun kw => listContains corpus kw.data)).map (fun kw => pre ++ kw),
       a.2 + c * ((l.filter (fun kw => listContains corpus kw.data)).length : ℚ)) := by
  induction l generalizing a with
  | nil => simp
  | cons hd tl ih =>
      by_cases hc : listContains corpus hd.data = true
      · simp only [List.foldl_cons, List.filter_cons, hc, eq_self_iff_true, if_true]
        rw [ih]
        simp only [List.map_cons, List.length_cons, List.append_assoc,
          List.singleton_append, Prod.mk.injEq]
        refine ⟨trivial, ?_⟩
        push_cast
        ring
      · simp only [Bool.not_eq_true] at hc
        simp only [List.foldl_cons, List.filter_cons, hc, Bool.false_eq_true,
          if_false]
        exact ih a

theorem evalPatternRule_eq (corpus : List Char) (stage : String) (rule : PatternRule) :
    evalPatternRule corpus stage rule =
      (if rule.threshold ≤
            min ((2:ℚ)/10 *
                ((rule.keywords.filter (fun kw => listContains corpus kw.data)).length : ℚ) +
              (3:ℚ)/10 *
                ((rule.phrases.filter (fun ph => listContains corpus ph.data)).length : ℚ)) 1 ∧
          ¬ (((rule.keywords.filter (fun kw => listContains corpus kw.data)).map
                (fun kw => "Mentioned: " ++ kw) ++
              (rule.phrases.filter (fun ph => listContains corpus ph.data)).map
                (fun ph => "Said: " ++ ph)).isEmpty)
        then some ⟨rule.name,
          min ((2:ℚ)/10 *
              ((rule.keywords.filter (fun kw => listContains corpus kw.data)).length : ℚ) +
            (3:ℚ)/10 *
              ((rule.phrases.filter (fun ph => listContains corpus ph.data)).length : ℚ)) 1,
          (rule.keywords.filter (fun kw => listContains corpus kw.data)).map
              (fun kw => "Mentioned: " ++ kw) ++
            (rule.phrases.filter (fun ph => listContains corpus ph.data)).map
              (fun ph => "Said: " ++ ph),
          stage, getPatternImplications rule.name⟩
        else none) := by
  simp only [evalPatternRule]
  rw [foldl_evidence_score, foldl_evidence_score]
  simp

/-- C6.  Pattern detection: a rule's emitted confidence is exactly
(matched keywords × 0.2 + matched phrases × 0.3) capped at 1.0; a pattern is
emitted if and only if that capped score reaches the rule's own threshold and
at least one keyword or phrase matched; every emitted pattern is in the
detection result, and the detection pass appends its results to the running
pattern history without any deduplication. -/
theorem pattern_scoring_emission (ur : UserResponses) (stage : String)
    (rule : PatternRule) (h : rule ∈ patternRules) :
    (∀ p, evalPatternRule (responseCorpus ur) stage rule = some p →
      p.confidence =
        min ((2:ℚ)/10 *
            ((rule.keywords.filter
              (fun kw => listContains (responseCorpus ur) kw.data)).length : ℚ) +
          (3:ℚ)/10 *
            ((rule.phrases.filter
              (fun ph => listContains (responseCorpus ur) ph.data)).length : ℚ)) 1) ∧
    ((∃ p, evalPatternRule (responseCorpus ur) stage rule = some p) ↔
      (rule.threshold ≤
        min ((2:ℚ)/10 *
            ((rule.keywords.filter
              (fun kw => listContains (responseCorpus ur) kw.data)).length : ℚ) +
          (3:ℚ)/10 *
            ((rule.phrases.filter
              (fun ph => listContains (responseCorpus ur) ph.data)).length : ℚ)) 1 ∧
        0 < (rule.keywords.filter
              (fun kw => listContains (responseCorpus ur) kw.data)).length +
            (rule.phrases.filter
              (fun ph => listContains (responseCorpus ur) ph.data)).length)) ∧
    (∀ p, evalPatternRule (responseCorpus ur) stage rule = some p →
      p ∈ analyzeResponsePatterns ur stage) ∧
    (∀ e : EngineState, (runAnalyze e ur stage).1.responsePatterns =
      e.responsePatterns ++ analyzeResponsePatterns ur stage) := by
  refine ⟨?_, ?_, ?_, fun e => rfl⟩
  · intro p hp
    rw [evalPatternRule_eq] at hp
    split_ifs at hp
    injection hp with hp
    rw [← hp]
  · rw [evalPatternRule_eq]
    constructor
    · intro ⟨p, hp⟩
      split_ifs at hp with hcond
      refine ⟨hcond.1, ?_⟩
      rcases Nat.eq_zero_or_pos
        ((rule.keywords.filter
            (fun kw => listContains (responseCorpus ur) kw.data)).length +
          (rule.phrases.filter
            (fun ph => listContains (responseCorpus ur) ph.data)).length) with hz | hz
      · exfalso
        apply hcond.2
        rw [List.isEmpty_iff, List.append_eq_nil, List.map_eq_nil_iff,
          List.map_eq_nil_iff]
        constructor
        · exact List.eq_nil_of_length_eq_zero (Nat.eq_zero_of_add_eq_zero_right hz)
        · exact List.eq_nil_of_length_eq_zero (Nat.eq_zero_of_add_eq_zero_left hz)
      · exact hz
    · intro ⟨hthr, hpos⟩
      rw [if_pos]
      · exact ⟨_, rfl⟩
      · refine ⟨hthr, ?_⟩
        rw [List.isEmpty_iff, List.append_eq_nil, List.map_eq_nil_iff,
          List.map_eq_nil_iff]
        intro ⟨h1, h2⟩
        rw [h1, h2] at hpos
        simp at hpos
  · intro p hp
    exact List.mem_filterMap.mpr ⟨rule, h, hp⟩

/-- Witness for C6 at a concrete corpus: the teaching rule matches five
keywords (score capped at 1.0 ≥ 0.7), so a pattern is emitted with
confidence exactly the capped score. -/
theorem pattern_scoring_emission_witness :
    (∃ p, evalPatternRule (responseCorpus urTeaching) "skills_assessment"
        teachingRule = some p) ∧
    (∀ p, evalPatternRule (responseCorpus urTeaching) "skills_assessment"
        teachingRule = some p → p.confidence = 1) := by
  have h := pattern_scoring_emission urTeaching "skills_assessment" teachingRule
    (by decide)
  constructor
  · exact h.2.1.mpr (by decide)
  · intro p hp
    have hc := h.1 p hp
    rw [hc]
    decide

/-- C5 counterexample.  A detection pass can produce a pattern with confidence
at the 0.8 deep-dive threshold (here `creative_expression` with four keyword
matches) and yet `generate_next_question` does not return a 0.9-priority
deep-dive question: `creative_expression` has no deep-dive template, so the
call falls through to a 0.6-priority coverage question. -/
theorem adaptive_question_priority_counterexample :
    (∃ p ∈ analyzeResponsePatterns urCreative "introduction",
      (8:ℚ)/10 ≤ p.confidence) ∧
    (generateNextQuestion initialEngine urCreative "introduction" "").2.priority
      = 6/10 ∧
    (generateNextQuestion initialEngine urCreative "introduction" "").2.questionType
      = QuestionType.standard := by
  refine ⟨?_, ?_, ?_⟩ <;> decide

theorem generateDeepDiveQuestion_props (p : ResponsePattern) (resp : String)
    (q : DynamicQuestion) (h : generateDeepDiveQuestion p resp = some q) :
    q.priority = 9/10 ∧ q.questionType = QuestionType.deepDive := by
  unfold generateDeepDiveQuestion at h
  cases hl : lookupAssoc deepDiveTemplates p.patternName with
  | none => rw [hl] at h; exact absurd h (by simp)
  | some ts =>
      rw [hl] at h
      cases ts with
      | nil => exact absurd h (by simp)
      | cons t rest =>
          injection h with h
          rw [← h]
          exact ⟨rfl, rfl⟩

theorem findDeepDive_some (l : List ResponsePattern) (resp : String)
    (q : DynamicQuestion) (h : findDeepDive l resp = some q) :
    q.priority = 9/10 ∧ q.questionType = QuestionType.deepDive ∧
    ∃ p ∈ l, deepDiveThreshold ≤ p.confidence ∧
      generateDeepDiveQuestion p resp = some q := by
  induction l with
  | nil => exact absurd h (by simp [findDeepDive])
  | cons hd tl ih =>
      unfold findDeepDive at h
      split_ifs at h with hc
      · cases hg : generateDeepDiveQuestion hd resp with
        | none =>
            rw [hg] at h
            obtain ⟨h1, h2, p, hp, hrest⟩ := ih h
            exact ⟨h1, h2, p, List.mem_cons_of_mem _ hp, hrest⟩
        | some q2 =>
            rw [hg] at h
            injection h with h
            subst h
            have hprops := generateDeepDiveQuestion_props hd resp q2 hg
            exact ⟨hprops.1, hprops.2, hd, List.mem_cons_self _ _, hc, hg⟩
      · obtain ⟨h1, h2, p, hp, hrest⟩ := ih h
        exact ⟨h1, h2, p, List.mem_cons_of_mem _ hp, hrest⟩

theorem findDeepDive_none (l : List ResponsePattern) (resp : String)
    (h : findDeepDive l resp = none) :
    ∀ p ∈ l, deepDiveThreshold ≤ p.confidence →
      generateDeepDiveQuestion p resp = none := by
  induction l with
  | nil => intro p hp; simp at hp
  | cons hd tl ih =>
      unfold findDeepDive at h
      split_ifs at h with hc
      · cases hg : generateDeepDiveQuestion hd resp with
        | some q2 => rw [hg] at h; exact absurd h (by simp)
        | none =>
            rw [hg] at h
            intro p hp hcp
            rcases List.mem_cons.mp hp with heq | hptl
            · rw [heq]; exact hg
            · exact ih h p hptl hcp
      · intro p hp hcp
        rcases List.mem_cons.mp hp with heq | hptl
        · rw [heq] at hcp; exact absurd hcp hc
        · exact ih h p hptl hcp

theorem generateFollowUpQuestion_props (resp stage : String) (q : DynamicQuestion)
    (h : generateFollowUpQuestion resp stage = some q) :
    q.priority = 7/10 ∧ q.questionType = QuestionType.followUp ∧
    ∃ rule ∈ followUpRules, q.questionText = rule.question := by
  unfold generateFollowUpQuestion at h
  cases hf : followUpRules.find? (fun rule =>
      rule.triggers.any (fun t => listContains (lowerData resp) t.data)) with
  | none => rw [hf] at h; exact absurd h (by simp)
  | some rule =>
      rw [hf] at h
      injection h with h
      rw [← h]
      exact ⟨rfl, rfl, rule, List.mem_of_find?_eq_some hf, rfl⟩

/-- C5 amended.  `generate_next_question` selects in the strict order
deep-dive (0.9), follow-up (0.7), coverage (0.6), synthesis (0.8), standard
(0.5), except that the deep-dive branch fires only for a detected pattern,
with confidence at or above the 0.8 threshold, that also has a deep-dive
template (a templateless high-confidence pattern is skipped); the detection
pass's patterns are appended to the engine's history. -/
theorem adaptive_question_priority_order (e : EngineState) (ur : UserResponses)
    (stage lastResp : String) :
    (generateNextQuestion e ur stage lastResp).1 =
      ⟨e.responsePatterns ++ analyzeResponsePatterns ur stage⟩ ∧
    (∀ q, findDeepDive (analyzeResponsePatterns ur stage) lastResp = some q →
      (generateNextQuestion e ur stage lastResp).2 = q ∧ q.priority = 9/10 ∧
      q.questionType = QuestionType.deepDive ∧
      ∃ p ∈ analyzeResponsePatterns ur stage, deepDiveThreshold ≤ p.confidence ∧
        generateDeepDiveQuestion p lastResp = some q) ∧
    (findDeepDive (analyzeResponsePatterns ur stage) lastResp = none →
      ∀ p ∈ analyzeResponsePatterns ur stage, deepDiveThreshold ≤ p.confidence →
        generateDeepDiveQuestion p lastResp = none) ∧
    (findDeepDive (analyzeResponsePatterns ur stage) lastResp = none →
      ∀ q, generateFollowUpQuestion lastResp stage = some q →
        (generateNextQuestion e ur stage lastResp).2 = q ∧ q.priority = 7/10 ∧
        q.questionType = QuestionType.followUp) ∧
    (findDeepDive (analyzeResponsePatterns ur stage) lastResp = none →
      generateFollowUpQuestion lastResp stage = none →
      ∀ a, findUncoveredArea ur = some a →
        (generateNextQuestion e ur stage lastResp).2 = generateCoverageQuestion a ∧
        (generateCoverageQuestion a).priority = 6/10 ∧
        (generateCoverageQuestion a).questionType = QuestionType.standard) ∧
    (findDeepDive (analyzeResponsePatterns ur stage) lastResp = none →
      generateFollowUpQuestion lastResp stage = none →
      findUncoveredArea ur = none →
      (2 ≤ ((e.responsePatterns ++ analyzeResponsePatterns ur stage).filter
          (fun p => decide ((7:ℚ)/10 ≤ p.confidence))).length →
        (generateNextQuestion e ur stage lastResp).2 = generateSynthesisQuestion ∧
        generateSynthesisQuestion.priority = 8/10 ∧
        generateSynthesisQuestion.questionType = QuestionType.synthesis) ∧
      (((e.responsePatterns ++ analyzeResponsePatterns ur stage).filter
          (fun p => decide ((7:ℚ)/10 ≤ p.confidence))).length < 2 →
        (generateNextQuestion e ur stage lastResp).2 =
          generateStandardQuestion stage ∧
        (generateStandardQuestion stage).priority = 5/10 ∧
        (generateStandardQuestion stage).questionType = QuestionType.standard)) := by
  refine ⟨rfl, ?_, ?_, ?_, ?_, ?_⟩
  · intro q hq
    have hprops := findDeepDive_some _ _ _ hq
    refine ⟨?_, hprops.1, hprops.2.1, hprops.2.2⟩
    show selectNextQuestion (analyzeResponsePatterns ur stage) _ ur stage lastResp = q
    unfold selectNextQuestion
    simp only [hq]
  · intro hnone
    exact findDeepDive_none _ _ hnone
  · intro hnone q hq
    have hprops := generateFollowUpQuestion_props _ _ _ hq
    refine ⟨?_, hprops.1, hprops.2.1⟩
    show selectNextQuestion (analyzeResponsePatterns ur stage) _ ur stage lastResp = q
    unfold selectNextQuestion
    simp only [hnone, hq]
  · intro h1 h2 a ha
    refine ⟨?_, rfl, rfl⟩
    show selectNextQuestion (analyzeResponsePatterns ur stage) _ ur stage lastResp = _
    unfold selectNextQuestion
    simp only [h1, h2, ha]
  · intro h1 h2 h3
    constructor
    · intro hcount
      refine ⟨?_, rfl, rfl⟩
      show selectNextQuestion (analyzeResponsePatterns ur stage)
        ⟨e.responsePatterns ++ analyzeResponsePatterns ur stage⟩ ur stage lastResp = _
      unfold selectNextQuestion
      simp only [h1, h2, h3]
      rw [if_pos hcount]
    · intro hcount
      refine ⟨?_, rfl, rfl⟩
      show selectNextQuestion (analyzeResponsePatterns ur stage)
        ⟨e.responsePatterns ++ analyzeResponsePatterns ur stage⟩ ur stage lastResp = _
      unfold selectNextQuestion
      simp only [h1, h2, h3]
      rw [if_neg (not_le.mpr hcount)]

/-- Witness for C5 amended at the creative corpus: with no usable deep dive, no
follow-up trigger and an uncovered area, the coverage branch's 0.6-priority
standard-type question is returned. -/
theorem adaptive_question_priority_order_witness :
    (generateNextQuestion initialEngine urCreative "introduction" "").2 =
      generateCoverageQuestion "natural_abilities" ∧
    (generateCoverageQuestion "natural_abilities").priority = 6/10 ∧
    (generateCoverageQuestion "natural_abilities").questionType =
      QuestionType.standard :=
  (adaptive_question_priority_order initialEngine urCreative "introduction"
    "").2.2.2.2.1 (by decide) (by decide) "natural_abilities" (by decide)

theorem themeCatFold_id (pre : String) (low : List Char) (acc : List (String × Nat))
    (table : List (String × List String))
    (h : ∀ c ∈ table, ∀ kw ∈ c.2, listContains low kw.data = false) :
    themeCatFold pre low acc table = acc := by
  unfold themeCatFold
  induction table generalizing acc with
  | nil => rfl
  | cons hd tl ih =>
      have hz : categoryHits hd.2 low = 0 := by
        unfold categoryHits
        have : hd.2.filter (fun kw => listContains low kw.data) = [] := by
          rw [List.filter_eq_nil_iff]
          intro kw hkw
          rw [h hd (List.mem_cons_self _ _) kw hkw]
          exact Bool.false_ne_true
        rw [this]
        rfl
      simp only [List.foldl_cons, hz, if_pos]
      exact ih acc (fun c hc => h c (List.mem_cons_of_mem _ hc))

theorem extractThemes_nil (resps : List String)
    (hS : ∀ c ∈ skillKeywords, ∀ kw ∈ c.2, ∀ r ∈ resps,
      listContains (lowerData r) kw.data = false)
    (hP : ∀ c ∈ passionKeywords, ∀ kw ∈ c.2, ∀ r ∈ resps,
      listContains (lowerData r) kw.data = false) :
    extractThemes resps = [] := by
  unfold extractThemes
  induction resps with
  | nil => rfl
  | cons r rest ih =>
      simp only [List.foldl_cons]
      rw [themeCatFold_id _ _ _ _
            (fun c hc kw hkw => hS c hc kw hkw r (List.mem_cons_self _ _)),
          themeCatFold_id _ _ _ _
            (fun c hc kw hkw => hP c hc kw hkw r (List.mem_cons_self _ _))]
      exact ih
        (fun c hc kw hkw r2 hr2 => hS c hc kw hkw r2 (List.mem_cons_of_mem _ hr2))
        (fun c hc kw hkw r2 hr2 => hP c hc kw hkw r2 (List.mem_cons_of_mem _ hr2))

theorem urGet_subset (ur : UserResponses) (st : String) :
    ∀ a ∈ urGet ur st, a ∈ ur.flatMap (fun kv => kv.2) := by
  intro a ha
  unfold urGet at ha
  cases hl : lookupAssoc ur st with
  | none => rw [hl] at ha; simp at ha
  | some l =>
      rw [hl] at ha
      simp only [Option.getD_some] at ha
      exact List.mem_flatMap.mpr ⟨(st, l), lookupAssoc_some_mem _ _ _ hl, ha⟩

theorem analyzeSkills_top_nil (responses : List AnswerRec)
    (hS : ∀ c ∈ skillKeywords, ∀ kw ∈ c.2, ∀ a ∈ responses,
      listContains (lowerData a.response) kw.data = false)
    (hP : ∀ c ∈ passionKeywords, ∀ kw ∈ c.2, ∀ a ∈ responses,
      listContains (lowerData a.response) kw.data = false) :
    topCategoriesOf (analyzeSkills responses) = [] := by
  have hext : extractThemes (responses.map (fun r => r.response)) = [] := by
    apply extractThemes_nil
    · intro c hc kw hkw r hr
      obtain ⟨a, ha, rfl⟩ := List.mem_map.mp hr
      exact hS c hc kw hkw a ha
    · intro c hc kw hkw r hr
      obtain ⟨a, ha, rfl⟩ := List.mem_map.mp hr
      exact hP c hc kw hkw a ha
  cases responses with
  | nil => rfl
  | cons a rest =>
      simp only [analyzeSkills, hext, topCategoriesOf]
      rfl

theorem analyzePassions_top_nil (responses : List AnswerRec)
    (hS : ∀ c ∈ skillKeywords, ∀ kw ∈ c.2, ∀ a ∈ responses,
      listContains (lowerData a.response) kw.data = false)
    (hP : ∀ c ∈ passionKeywords, ∀ kw ∈ c.2, ∀ a ∈ responses,
      listContains (lowerData a.response) kw.data = false) :
    topCategoriesOf (analyzePassions responses) = [] := by
  have hext : extractThemes (responses.map (fun r => r.response)) = [] := by
    apply extractThemes_nil
    · intro c hc kw hkw r hr
      obtain ⟨a, ha, rfl⟩ := List.mem_map.mp hr
      exact hS c hc kw hkw a ha
    · intro c hc kw hkw r hr
      obtain ⟨a, ha, rfl⟩ := List.mem_map.mp hr
      exact hP c hc kw hkw a ha
  cases responses with
  | nil => rfl
  | cons a rest =>
      simp only [analyzePassions, hext, topCategoriesOf]
      rfl

theorem calcScore_all_zero (gift : GiftInfo) (sa pa : Option ThemeAnalysis)
    (ur : UserResponses)
    (h1 : topCategoriesOf sa = []) (h2 : topCategoriesOf pa = [])
    (h3 : gift.keyValues.filter (fun v => listContains (valuesTextOf ur) v.data) = [])
    (h4 : gift.behavioralMarkers.filter (fun mk => markerMatches (allTextOf ur) mk) = []) :
    calculateIndividualGiftScore gift sa pa ur =
      ⟨0, ⟨0, 0, 0, 0⟩, "Low", gift.description, gift.typicalExpressions⟩ := by
  simp only [calculateIndividualGiftScore, h1, h2, h3, h4]
  norm_num [categorizeGiftStrength, roundTo1]

/-- C8.  When the corpus has no skill-keyword, passion-keyword, value-keyword
or behavioral-marker matches for a category of the framework, that category's
total score is exactly 0 and its strength label is "Low"; and whenever the
derived top-skills input is empty the skills sub-score is 0 (the computation
is total, no failure). -/
theorem zero_match_scores_zero_low (ur : UserResponses) (name : String)
    (gift : GiftInfo) (hg : (name, gift) ∈ giftsFramework)
    (hS : ∀ c ∈ skillKeywords, ∀ kw ∈ c.2, ∀ a ∈ ur.flatMap (fun kv => kv.2),
      listContains (lowerData a.response) kw.data = false)
    (hP : ∀ c ∈ passionKeywords, ∀ kw ∈ c.2, ∀ a ∈ ur.flatMap (fun kv => kv.2),
      listContains (lowerData a.response) kw.data = false)
    (hV : ∀ v ∈ gift.keyValues, listContains (valuesTextOf ur) v.data = false)
    (hB : ∀ mk ∈ gift.behavioralMarkers, markerMatches (allTextOf ur) mk = false) :
    (calculateIndividualGiftScore gift (skillsAnalysisOf ur)
      (passionsAnalysisOf ur) ur).totalScore = 0 ∧
    (calculateIndividualGiftScore gift (skillsAnalysisOf ur)
      (passionsAnalysisOf ur) ur).strength = "Low" ∧
    (name, calculateIndividualGiftScore gift (skillsAnalysisOf ur)
      (passionsAnalysisOf ur) ur) ∈ calculateGiftScores ur ∧
    (∀ (sa pa : Option ThemeAnalysis) (ur2 : UserResponses),
      topCategoriesOf sa = [] →
      (calculateIndividualGiftScore gift sa pa ur2).scoreComponents.skillsAlignment
        = 0) := by
  have htopS : topCategoriesOf (skillsAnalysisOf ur) = [] :=
    analyzeSkills_top_nil _
      (fun c hc kw hkw a ha => hS c hc kw hkw a (urGet_subset ur _ a ha))
      (fun c hc kw hkw a ha => hP c hc kw hkw a (urGet_subset ur _ a ha))
  have htopP : topCategoriesOf (passionsAnalysisOf ur) = [] :=
    analyzePassions_top_nil _
      (fun c hc kw hkw a ha => hS c hc kw hkw a (urGet_subset ur _ a ha))
      (fun c hc kw hkw a ha => hP c hc kw hkw a (urGet_subset ur _ a ha))
  have hvf : gift.keyValues.filter (fun v => listContains (valuesTextOf ur) v.data)
      = [] := by
    rw [List.filter_eq_nil_iff]
    intro v hv
    rw [hV v hv]
    exact Bool.false_ne_true
  have hbf : gift.behavioralMarkers.filter (fun mk => markerMatches (allTextOf ur) mk)
      = [] := by
    rw [List.filter_eq_nil_iff]
    intro mk hmk
    rw [hB mk hmk]
    exact Bool.false_ne_true
  have hcalc := calcScore_all_zero gift _ _ ur htopS htopP hvf hbf
  refine ⟨by rw [hcalc], by rw [hcalc], ?_, ?_⟩
  · exact List.mem_map.mpr ⟨(name, gift), hg, rfl⟩
  · intro sa pa ur2 htop
    simp only [calculateIndividualGiftScore, htop]
    norm_num

/-- Witness for C8 at the empty corpus and the teaching category. -/
theorem zero_match_scores_zero_low_witness :
    (calculateIndividualGiftScore teachingGift (skillsAnalysisOf [])
      (passionsAnalysisOf []) []).totalScore = 0 ∧
    (calculateIndividualGiftScore teachingGift (skillsAnalysisOf [])
      (passionsAnalysisOf []) []).strength = "Low" := by
  have h := zero_match_scores_zero_low [] "teaching" teachingGift (by decide)
    (by intro c hc kw hkw a ha; simp at ha)
    (by intro c hc kw hkw a ha; simp at ha)
    (by decide) (by decide)
  exact ⟨h.1, h.2.1⟩

/-- C9 counterexample.  The minimal session satisfying the claim's hypotheses
(skills answers containing "teach", "explain", "mentor"; passions answers
containing "love", "learn", "education") scores the teaching category at
25/3 + 25/2 = 125/6 ≈ 20.83 — "love" is not a passion keyword, the values
stage is empty and no behavioral-marker word occurs — so the total does not
exceed 30 and the label is "Emerging", below "Moderate". -/
theorem teaching_score_counterexample :
    (listContains (lowerData "teach explain mentor") "teach".data = true ∧
     listContains (lowerData "teach explain mentor") "explain".data = true ∧
     listContains (lowerData "teach explain mentor") "mentor".data = true ∧
     listContains (lowerData "love learn education") "love".data = true ∧
     listContains (lowerData "love learn education") "learn".data = true ∧
     listContains (lowerData "love learn education") "education".data = true ∧
     urGet urC9min "skills_assessment" = [⟨"teach explain mentor", "t0", 0⟩] ∧
     urGet urC9min "passion_exploration" = [⟨"love learn education", "t1", 0⟩]) ∧
    ((calculateIndividualGiftScore teachingGift (skillsAnalysisOf urC9min)
        (passionsAnalysisOf urC9min) urC9min).scoreComponents.skillsAlignment +
      (calculateIndividualGiftScore teachingGift (skillsAnalysisOf urC9min)
        (passionsAnalysisOf urC9min) urC9min).scoreComponents.passionsAlignment +
      (calculateIndividualGiftScore teachingGift (skillsAnalysisOf urC9min)
        (passionsAnalysisOf urC9min) urC9min).scoreComponents.valuesAlignment +
      (calculateIndividualGiftScore teachingGift (skillsAnalysisOf urC9min)
        (passionsAnalysisOf urC9min) urC9min).scoreComponents.responseContent
      = 125/6) ∧
    ¬ (30 < (125:ℚ)/6) ∧
    (calculateIndividualGiftScore teachingGift (skillsAnalysisOf urC9min)
      (passionsAnalysisOf urC9min) urC9min).totalScore = 104/5 ∧
    (calculateIndividualGiftScore teachingGift (skillsAnalysisOf urC9min)
      (passionsAnalysisOf urC9min) urC9min).strength = "Emerging" := by
  refine ⟨by decide, by decide, by norm_num, by decide, by decide⟩

theorem isEmpty_false_of_mem {α : Type} {l : List α} {a : α} (h : a ∈ l) :
    l.isEmpty = false := by
  cases l with
  | nil => simp at h
  | cons x xs => rfl

/-- C9 amended.  For every session whose derived top-3 skills include
"teaching", whose derived top-3 passions include "learning", and whose
values-stage text contains all four teaching value keywords ("truth",
"growth", "education", "understanding"), the teaching category's computed
total score (the sum of the four sub-scores) exceeds 30 and its strength
label is at least "Moderate". -/
theorem teaching_score_amended (ur : UserResponses)
    (hsk : "teaching" ∈ topCategoriesOf (skillsAnalysisOf ur))
    (hpa : "learning" ∈ topCategoriesOf (passionsAnalysisOf ur))
    (hv : ∀ v ∈ teachingGift.keyValues, listContains (valuesTextOf ur) v.data = true) :
    30 < (calculateIndividualGiftScore teachingGift (skillsAnalysisOf ur)
        (passionsAnalysisOf ur) ur).scoreComponents.skillsAlignment +
      (calculateIndividualGiftScore teachingGift (skillsAnalysisOf ur)
        (passionsAnalysisOf ur) ur).scoreComponents.passionsAlignment +
      (calculateIndividualGiftScore teachingGift (skillsAnalysisOf ur)
        (passionsAnalysisOf ur) ur).scoreComponents.valuesAlignment +
      (calculateIndividualGiftScore teachingGift (skillsAnalysisOf ur)
        (passionsAnalysisOf ur) ur).scoreComponents.responseContent ∧
    ((calculateIndividualGiftScore teachingGift (skillsAnalysisOf ur)
        (passionsAnalysisOf ur) ur).strength = "Moderate" ∨
     (calculateIndividualGiftScore teachingGift (skillsAnalysisOf ur)
        (passionsAnalysisOf ur) ur).strength = "Strong" ∨
     (calculateIndividualGiftScore teachingGift (skillsAnalysisOf ur)
        (passionsAnalysisOf ur) ur).strength = "Dominant") := by
  have hSne : ¬ ((topCategoriesOf (skillsAnalysisOf ur)).isEmpty = true) := by
    rw [isEmpty_false_of_mem hsk]
    exact Bool.false_ne_true
  have hPne : ¬ ((topCategoriesOf (passionsAnalysisOf ur)).isEmpty = true) := by
    rw [isEmpty_false_of_mem hpa]
    exact Bool.false_ne_true
  have hskc : (topCategoriesOf (skillsAnalysisOf ur)).contains "teaching" = true := by
    exact List.elem_eq_true_of_mem hsk
  have hpac : (topCategoriesOf (passionsAnalysisOf ur)).contains "learning" = true := by
    exact List.elem_eq_true_of_mem hpa
  have hskfilter : "teaching" ∈ teachingGift.keySkills.filter
      (fun s => (topCategoriesOf (skillsAnalysisOf ur)).contains s) :=
    List.mem_filter.mpr ⟨by decide, hskc⟩
  have hpafilter : "learning" ∈ teachingGift.keyPassions.filter
      (fun s => (topCategoriesOf (passionsAnalysisOf ur)).contains s) :=
    List.mem_filter.mpr ⟨by decide, hpac⟩
  have hn1 : (1:ℚ) ≤ ((teachingGift.keySkills.filter
      (fun s => (topCategoriesOf (skillsAnalysisOf ur)).contains s)).length : ℚ) := by
    have := List.length_pos.mpr (List.ne_nil_of_mem hskfilter)
    exact_mod_cast this
  have hn2 : (1:ℚ) ≤ ((teachingGift.keyPassions.filter
      (fun s => (topCategoriesOf (passionsAnalysisOf ur)).contains s)).length : ℚ) := by
    have := List.length_pos.mpr (List.ne_nil_of_mem hpafilter)
    exact_mod_cast this
  have hvals : teachingGift.keyValues.filter
      (fun v => listContains (valuesTextOf ur) v.data) = teachingGift.keyValues := by
    rw [List.filter_eq_self]
    exact hv
  have hbm : (0:ℚ) ≤ ((teachingGift.behavioralMarkers.filter
      (fun mk => markerMatches (allTextOf ur) mk)).length : ℚ) := by positivity
  have e1 : (calculateIndividualGiftScore teachingGift (skillsAnalysisOf ur)
      (passionsAnalysisOf ur) ur).scoreComponents.skillsAlignment =
      (if ¬ ((topCategoriesOf (skillsAnalysisOf ur)).isEmpty = true) ∧
          ¬ (teachingGift.keySkills.isEmpty = true) then
        ((teachingGift.keySkills.filter
          (fun s => (topCategoriesOf (skillsAnalysisOf ur)).contains s)).length : ℚ) /
          (teachingGift.keySkills.length : ℚ) * 25
      else 0) := rfl
  have e2 : (calculateIndividualGiftScore teachingGift (skillsAnalysisOf ur)
      (passionsAnalysisOf ur) ur).scoreComponents.passionsAlignment =
      (if ¬ ((topCategoriesOf (passionsAnalysisOf ur)).isEmpty = true) ∧
          ¬ (teachingGift.keyPassions.isEmpty = true) then
        ((teachingGift.keyPassions.filter
          (fun s => (topCategoriesOf (passionsAnalysisOf ur)).contains s)).length : ℚ) /
          (teachingGift.keyPassions.length : ℚ) * 25
      else 0) := rfl
  have e3 : (calculateIndividualGiftScore teachingGift (skillsAnalysisOf ur)
      (passionsAnalysisOf ur) ur).scoreComponents.valuesAlignment =
      (if ¬ (teachingGift.keyValues.isEmpty = true) then
        ((teachingGift.keyValues.filter
          (fun v => listContains (valuesTextOf ur) v.data)).length : ℚ) /
          (teachingGift.keyValues.length : ℚ) * 25
      else 0) := rfl
  have e4 : (calculateIndividualGiftScore teachingGift (skillsAnalysisOf ur)
      (passionsAnalysisOf ur) ur).scoreComponents.responseContent =
      (if ¬ (teachingGift.behavioralMarkers.isEmpty = true) then
        ((teachingGift.behavioralMarkers.filter
          (fun mk => markerMatches (allTextOf ur) mk)).length : ℚ) /
          (teachingGift.behavioralMarkers.length : ℚ) * 25
      else 0) := rfl
  have e5 : (calculateIndividualGiftScore teachingGift (skillsAnalysisOf ur)
      (passionsAnalysisOf ur) ur).strength =
      categorizeGiftStrength
        ((calculateIndividualGiftScore teachingGift (skillsAnalysisOf ur)
          (passionsAnalysisOf ur) ur).scoreComponents.skillsAlignment +
         (calculateIndividualGiftScore teachingGift (skillsAnalysisOf ur)
          (passionsAnalysisOf ur) ur).scoreComponents.passionsAlignment +
         (calculateIndividualGiftScore teachingGift (skillsAnalysisOf ur)
          (passionsAnalysisOf ur) ur).scoreComponents.valuesAlignment +
         (calculateIndividualGiftScore teachingGift (skillsAnalysisOf ur)
          (passionsAnalysisOf ur) ur).scoreComponents.responseContent) := rfl
  have htotal : 30 < (calculateIndividualGiftScore teachingGift (skillsAnalysisOf ur)
        (passionsAnalysisOf ur) ur).scoreComponents.skillsAlignment +
      (calculateIndividualGiftScore teachingGift (skillsAnalysisOf ur)
        (passionsAnalysisOf ur) ur).scoreComponents.passionsAlignment +
      (calculateIndividualGiftScore teachingGift (skillsAnalysisOf ur)
        (passionsAnalysisOf ur) ur).scoreComponents.valuesAlignment +
      (calculateIndividualGiftScore teachingGift (skillsAnalysisOf ur)
        (passionsAnalysisOf ur) ur).scoreComponents.responseContent := by
    rw [e1, e2, e3, e4]
    rw [if_pos ⟨hSne, by decide⟩, if_pos ⟨hPne, by decide⟩, if_pos (by decide),
      if_pos (by decide), hvals]
    have hlen1 : ((teachingGift.keySkills.length : ℚ)) = 3 := by decide
    have hlen2 : ((teachingGift.keyPassions.length : ℚ)) = 2 := by decide
    have hlen3 : ((teachingGift.keyValues.length : ℚ)) = 4 := by decide
    have hlen4 : ((teachingGift.behavioralMarkers.length : ℚ)) = 4 := by decide
    rw [hlen1, hlen2, hlen3, hlen4]
    linarith
  refine ⟨htotal, ?_⟩
  rw [e5]
  unfold categorizeGiftStrength
  split_ifs with d1 d2 d3 d4
  · exact Or.inr (Or.inr rfl)
  · exact Or.inr (Or.inl rfl)
  · exact Or.inl rfl
  · exfalso; linarith
  · exfalso; linarith

/-- Witness for C9 amended at the extended concrete session: the derived top
skills are exactly ["teaching"], the top passions ["learning"], and the values
text contains all four keywords, so the total exceeds 30 and the label is at
least "Moderate" (here in fact "Strong"). -/
theorem teaching_score_amended_witness :
    30 < (calculateIndividualGiftScore teachingGift (skillsAnalysisOf urC9full)
        (passionsAnalysisOf urC9full) urC9full).scoreComponents.skillsAlignment +
      (calculateIndividualGiftScore teachingGift (skillsAnalysisOf urC9full)
        (passionsAnalysisOf urC9full) urC9full).scoreComponents.passionsAlignment +
      (calculateIndividualGiftScore teachingGift (skillsAnalysisOf urC9full)
        (passionsAnalysisOf urC9full) urC9full).scoreComponents.valuesAlignment +
      (calculateIndividualGiftScore teachingGift (skillsAnalysisOf urC9full)
        (passionsAnalysisOf urC9full) urC9full).scoreComponents.responseContent ∧
    ((calculateIndividualGiftScore teachingGift (skillsAnalysisOf urC9full)
        (passionsAnalysisOf urC9full) urC9full).strength = "Moderate" ∨
     (calculateIndividualGiftScore teachingGift (skillsAnalysisOf urC9full)
        (passionsAnalysisOf urC9full) urC9full).strength = "Strong" ∨
     (calculateIndividualGiftScore teachingGift (skillsAnalysisOf urC9full)
        (passionsAnalysisOf urC9full) urC9full).strength = "Dominant") :=
  teaching_score_amended urC9full (by decide) (by decide) (by decide)

theorem analyticalScore_bounds (m : PersonalityMarkers) :
    0 ≤ analyticalScore m ∧ analyticalScore m ≤ 1 := by
  unfold analyticalScore
  split_ifs <;> norm_num

theorem expressiveScore_bounds (m : PersonalityMarkers) :
    0 ≤ expressiveScore m ∧ expressiveScore m ≤ 1 := by
  unfold expressiveScore
  split_ifs <;> norm_num

theorem practicalScore_bounds (m : PersonalityMarkers) :
    0 ≤ practicalScore m ∧ practicalScore m ≤ 1 := by
  unfold practicalScore
  split_ifs <;> norm_num

theorem reflectiveScore_bounds (m : PersonalityMarkers) :
    0 ≤ reflectiveScore m ∧ reflectiveScore m ≤ 1 := by
  unfold reflectiveScore
  split_ifs <;> norm_num

/-- C10.  The style classifier's returned confidence is the maximum of the
four additive style scores and lies in [0, 1] (each per-style score is a sum
of non-negative weights totaling at most 1.0); the returned pair is one of
the four score entries, its score dominates every entry, and among entries
tying for the maximum the style declared first (analytical, expressive,
practical, reflective order) is selected. -/
theorem style_confidence_bounds_tiebreak (m : PersonalityMarkers) :
    0 ≤ (determineCommunicationStyle m).2 ∧
    (determineCommunicationStyle m).2 ≤ 1 ∧
    (determineCommunicationStyle m) ∈ styleScoresList m ∧
    (∀ sp ∈ styleScoresList m, sp.2 ≤ (determineCommunicationStyle m).2) ∧
    (∀ sp ∈ styleScoresList m, sp.2 = (determineCommunicationStyle m).2 →
      styleIndex (determineCommunicationStyle m).1 ≤ styleIndex sp.1) := by
  have ha := analyticalScore_bounds m
  have he := expressiveScore_bounds m
  have hp := practicalScore_bounds m
  have hr := reflectiveScore_bounds m
  simp only [determineCommunicationStyle, styleScoresList, pyMaxBy]
  split_ifs with h1 h2 h3 h4 h5 h6 h7 <;>
    refine ⟨?_, ?_, ?_, ?_, ?_⟩ <;>
    try first
      | exact ha.1 | exact he.1 | exact hp.1 | exact hr.1
      | exact ha.2 | exact he.2 | exact hp.2 | exact hr.2
      | simp
  all_goals refine ⟨?_, ?_, ?_⟩
  all_goals try intro heq
  all_goals first
    | linarith
    | (simp only [styleIndex]; omega)

/-- Witness for C10 at the default markers: the confidence (0.6, achieved by
the expressive style) lies in [0, 1] and the chosen style's declaration index
is minimal among entries achieving it. -/
theorem style_confidence_bounds_tiebreak_witness :
    0 ≤ (determineCommunicationStyle defaultMarkers).2 ∧
    (determineCommunicationStyle defaultMarkers).2 ≤ 1 ∧
    styleIndex (determineCommunicationStyle defaultMarkers).1 ≤
      styleIndex CommunicationStyle.expressive := by
  have h := style_confidence_bounds_tiebreak defaultMarkers
  exact ⟨h.1, h.2.1,
    h.2.2.2.2 (CommunicationStyle.expressive, expressiveScore defaultMarkers)
      (by decide) (by decide)⟩
